import Mathlib

set_option autoImplicit false

/-!
Verification development for the k8s-kong-api controllers.

The Go sources are embedded shallowly:

* Kubernetes resources (`v1.Service`, `GatewayApi`, `ApiPlugin`) become plain
  structures; Go maps become association lists.
* The kong admin client (`kong/client.go`) is split into the primitive
  HTTP-backed operations, gathered in an abstract `KongClient` record over an
  arbitrary gateway-state type `σ` (each call returns a Go-style
  `Except GoError` result together with the successor state), and the
  operations `client.go` composes from the primitives (`APIHasPlugin`,
  `RemovePlugin`), which are embedded as Lean functions over a `KongClient`.
* The controller methods of `gatewayapi/service.go` and `apiplugin/service.go`
  are embedded as functions over a `KongClient`, with the Kubernetes lookups
  they perform supplied as explicit parameters (the resource store is external
  and read-only to this system).
* A reference gateway instantiation (`Gateway`, further below) implements the
  primitives over an explicit state, following the documented kong admin API
  behaviour (distinguished 404 outcomes exactly where `client.go` maps a 404
  to `ErrNotFound`; any other non-success HTTP status becomes a generic
  `GoError.msg` error, as `client.go` produces via `fmt.Errorf`).
-/

/-- Go `error` values that appear in the embedded code: the distinguished
`kong.ErrNotFound`, the two sentinel errors of `gatewayapi/service.go`
(`ErrGatewayNotFound`, `ErrServiceNotFound`), and `msg` for every
`fmt.Errorf`/transport error (the string is the formatted message). -/
inductive GoError where
  | kongNotFound
  | gatewayNotFound
  | serviceNotFound
  | msg (s : String)
  deriving DecidableEq, Repr

/-- Go map-index lookup `m[key]` on a label map, with the `ok` flag modelled
by `Option`. -/
def lookupLabel (ls : List (String × String)) (key : String) : Option String :=
  (ls.find? (fun kv => kv.1 == key)).map (fun kv => kv.2)

/-- One entry of `v1.Service.Spec.Ports`: a (name, port number) pair.
The port number is an `int32` in Go; port values never approach the `int32`
bounds here, so it is modelled as `Int`. -/
structure ServicePort where
  name : String
  port : Int
  deriving DecidableEq, Repr

/-- The parts of `v1.Service` the controllers read: `GetName()`, the metadata
label map, `Spec.ClusterIP` and `Spec.Ports`. -/
structure V1Service where
  name : String
  labels : List (String × String)
  clusterIP : String
  ports : List ServicePort
  deriving DecidableEq, Repr

/-- `gatewayapi.Spec` (src/unnamed/part_002): the RouteDefinition spec.
Go `*bool` fields become `Option Bool`; `int64` fields become `Int`. -/
structure GatewaySpec where
  Hosts : List String
  Uris : List String
  StripURI : Option Bool
  Methods : List String
  PreserveHost : Option Bool
  Retries : Int
  UpstreamConnectTimeout : Int
  UpstreamSendTimeout : Int
  UpstreamReadTimeout : Int
  HTTPSOnly : Option Bool
  HTTPIfTerminated : Option Bool
  Selector : List (String × String)
  deriving DecidableEq, Repr

/-- `gatewayapi.GatewayApi`: the RouteDefinition resource; `name` stands for
`Metadata.GetName()`. -/
structure GatewayApi where
  name : String
  spec : GatewaySpec
  deriving DecidableEq, Repr

/-- `apiplugin.Spec`: the PluginDefinition spec. The plugin `config` map is
opaque to all control logic (only passed through), modelled as an association
list. -/
structure PluginSpec where
  name : String
  config : List (String × String)
  selector : List (String × String)
  deriving DecidableEq, Repr

/-- `apiplugin.ApiPlugin`: the PluginDefinition resource; `name` and `labels`
stand for `Metadata.GetName()` and the metadata label map (the label map is
what the list-watch label selector of `attachServicePlugins` filters on). -/
structure ApiPlugin where
  name : String
  labels : List (String × String)
  spec : PluginSpec
  deriving DecidableEq, Repr

/-- `kong.API` (src/unnamed/part_002): the kong API object. -/
structure API where
  ID : String
  Name : String
  Hosts : List String
  URIs : List String
  UpstreamURL : String
  StripURI : Option Bool
  Methods : List String
  PreserveHost : Option Bool
  Retries : Int
  UpstreamConnectTimeout : Int
  UpstreamSendTimeout : Int
  UpstreamReadTimeout : Int
  HTTPSOnly : Option Bool
  HTTPIfTerminated : Option Bool
  deriving DecidableEq, Repr

/-- `kong.Plugin` (src/unnamed/part_003). -/
structure Plugin where
  ID : String
  APIID : String
  Name : String
  Config : List (String × String)
  Enabled : Bool
  deriving DecidableEq, Repr

/-- `kong.PluginList`. -/
structure PluginList where
  Total : Int
  Data : List Plugin
  deriving DecidableEq, Repr

/-- The primitive HTTP-backed operations of `kong/client.go`, abstracted over
a gateway-state type `σ`.  Each operation returns the Go `(value, error)`
outcome as `Except GoError` plus the state the gateway is left in.
`DeletePluginByID` is the DELETE request `RemovePlugin` issues once it has
resolved the plugin id. -/
structure KongClient (σ : Type) where
  GetAPI : String → σ → Except GoError API × σ
  CreateAPI : API → σ → Except GoError API × σ
  UpdateAPI : API → σ → Except GoError API × σ
  DeleteAPI : String → σ → Except GoError Unit × σ
  ListApiPlugins : String → σ → Except GoError PluginList × σ
  AddPlugin : String → Plugin → σ → Except GoError Plugin × σ
  UpdatePlugin : String → Plugin → σ → Except GoError Plugin × σ
  DeletePluginByID : String → String → σ → Except GoError Unit × σ

/-- The scan loop of `kong.Client.APIHasPlugin` (kong/client.go): walk the
plugin list until one with the given name is found. -/
def findPluginNamed : List Plugin → String → Bool
  | [], _ => false
  | p :: rest, pluginName =>
    if p.Name == pluginName then true else findPluginNamed rest pluginName

/-- `kong.Client.APIHasPlugin` (kong/client.go lines 771-794): get the API
first and report `false` with no error when it does not exist; otherwise list
the API's plugins and scan for the name. -/
def APIHasPlugin {σ : Type} (c : KongClient σ) (apiName pluginName : String)
    (s : σ) : Except GoError Bool × σ :=
  match c.GetAPI apiName s with
  | (.error .kongNotFound, s₁) => (.ok false, s₁)
  | (.error e, s₁) => (.error e, s₁)
  | (.ok _, s₁) =>
    match c.ListApiPlugins apiName s₁ with
    | (.error e, s₂) => (.error e, s₂)
    | (.ok plugins, s₂) => (.ok (findPluginNamed plugins.Data pluginName), s₂)

/-- The id-resolution loop of `kong.Client.RemovePlugin`: the id of the first
plugin carrying the name, or `""` when none does. -/
def findPluginID : List Plugin → String → String
  | [], _ => ""
  | p :: rest, pluginName =>
    if p.Name == pluginName then p.ID else findPluginID rest pluginName

/-- `kong.Client.RemovePlugin` (kong/client.go): list the API's plugins,
resolve the id of the one carrying the name (kong has no delete-by-name), and
issue the DELETE; an unresolved name is an error. -/
def RemovePlugin {σ : Type} (c : KongClient σ) (apiName pluginName : String)
    (s : σ) : Except GoError Unit × σ :=
  match c.ListApiPlugins apiName s with
  | (.error e, s₁) => (.error e, s₁)
  | (.ok apiPlugins, s₁) =>
    let pluginID := findPluginID apiPlugins.Data pluginName
    if pluginID == "" then
      (.error (.msg ("No plugin exists for the provided service with the configuration name: " ++ pluginName)), s₁)
    else
      match c.DeletePluginByID apiName pluginID s₁ with
      | (.error e, s₂) => (.error e, s₂)
      | (.ok _, s₂) => (.ok (), s₂)

/-- One requirement of a Kubernetes label selector (`k8s.io/client-go/pkg/labels`):
either `selection.Exists` for a key or `selection.Equals` against one value —
the only two forms this code builds. -/
inductive Requirement where
  | hasKey (key : String)
  | keyEquals (key : String) (value : String)
  deriving DecidableEq, Repr

/-- A label selector: requirements combined with logical AND. -/
abbrev Selector := List Requirement

/-- `labels.Selector.Add`: client-go's `Add` copies the receiver, appends the
requirement and returns the NEW selector; the receiver itself is unchanged
(value receiver in Go). -/
def Selector.add (s : Selector) (r : Requirement) : Selector := s ++ [r]

/-- Whether one requirement holds of a resource's label map. -/
def Requirement.holdsFor : Requirement → List (String × String) → Bool
  | .hasKey key, ls => (lookupLabel ls key).isSome
  | .keyEquals key value, ls =>
    match lookupLabel ls key with
    | some v => v == value
    | none => false

/-- Whether a label map satisfies every requirement of a selector. -/
def selectorMatches (sel : Selector) (ls : List (String × String)) : Bool :=
  sel.all (fun r => r.holdsFor ls)

/-- `gatewayapi.Service.getServiceByServiceLabelSelector`
(gatewayapi/service.go lines 482-515).  The resource store is supplied as the
list of services of the namespace; the REST list call filters them by the
label selector the function built.

Embedded exactly as written: the source calls `selector.Add(*req)` and
`selector.Add(*req2)` WITHOUT assigning the result, and client-go's
`Selector.Add` returns a new selector instead of mutating its receiver, so
both requirements are discarded and the query runs with the empty selector
(which matches every service).  The two discarded `Selector.add` results are
kept here as dead `let` bindings to mirror the source. -/
def getServiceByServiceLabelSelector (serviceSelectorLabel apiLabel : String)
    (services : List V1Service) (value : String) : Except GoError V1Service :=
  let selector : Selector := []
  let _ := Selector.add selector (.keyEquals serviceSelectorLabel value)
  let _ := Selector.add selector (.hasKey apiLabel)
  match services.filter (fun svc => selectorMatches selector svc.labels) with
  | [] => .error .serviceNotFound
  | service :: _ => .ok service

/-- The lookup helper as the spec describes it (for comparison with the
embedding above): require the service-selector label to EQUAL the provided
name AND the api label to EXIST, combined with logical AND; zero matches is
`ErrServiceNotFound`, more than one match returns the first item. -/
def getServiceByServiceLabelSelectorClaimed (serviceSelectorLabel apiLabel : String)
    (services : List V1Service) (value : String) : Except GoError V1Service :=
  let selector := Selector.add (Selector.add [] (.keyEquals serviceSelectorLabel value)) (.hasKey apiLabel)
  match services.filter (fun svc => selectorMatches selector svc.labels) with
  | [] => .error .serviceNotFound
  | service :: _ => .ok service

/-- `k8stypes.ServiceEvent`. -/
structure ServiceEvent where
  type : String
  Object : V1Service
  deriving DecidableEq, Repr

/-- `k8stypes.ServiceUpdateEvent`. -/
structure ServiceUpdateEvent where
  Old : V1Service
  New : V1Service
  deriving DecidableEq, Repr

namespace gatewayapi

/-- `gatewayapi.Event`. -/
structure Event where
  type : String
  Object : GatewayApi
  deriving DecidableEq, Repr

/-- `gatewayapi.UpdateEvent`. -/
structure UpdateEvent where
  Old : GatewayApi
  New : GatewayApi
  deriving DecidableEq, Repr

/-- `gatewayapi.Service.createKongGatewayApiForService`
(gatewayapi/service.go lines 113-162).  `getGatewayApi` stands for the
Kubernetes REST lookup of the GatewayApi resource (external store).  Note the
existence check: the API object is created only when `GetAPI` failed with
exactly `kong.ErrNotFound` (`err != nil && err == kong.ErrNotFound`); every
other `GetAPI` outcome — success or any other error — falls through to
`return nil`. -/
def createKongGatewayApiForService {σ : Type} (apiLabel : String)
    (getGatewayApi : String → Except GoError GatewayApi)
    (c : KongClient σ) (v1s : V1Service) (s : σ) : Except GoError Unit × σ :=
  match lookupLabel v1s.labels apiLabel with
  | none => (.ok (), s)
  | some gatewayApiName =>
    match getGatewayApi gatewayApiName with
    | .error e => (.error e, s)
    | .ok gatewayApi =>
      match v1s.ports with
      | [] => (.error (.msg ("The service " ++ v1s.name ++ " should expose at least one port")), s)
      | firstPort :: _ =>
        let upstreamURL := v1s.clusterIP ++ ":" ++ toString firstPort.port
        match c.GetAPI v1s.name s with
        | (.error .kongNotFound, s₁) =>
          let api : API :=
            { ID := ""
              Name := v1s.name
              Hosts := gatewayApi.spec.Hosts
              URIs := gatewayApi.spec.Uris
              UpstreamURL := upstreamURL
              StripURI := gatewayApi.spec.StripURI
              Methods := gatewayApi.spec.Methods
              PreserveHost := gatewayApi.spec.PreserveHost
              Retries := gatewayApi.spec.Retries
              UpstreamConnectTimeout := gatewayApi.spec.UpstreamConnectTimeout
              UpstreamSendTimeout := gatewayApi.spec.UpstreamSendTimeout
              UpstreamReadTimeout := gatewayApi.spec.UpstreamReadTimeout
              HTTPSOnly := gatewayApi.spec.HTTPSOnly
              HTTPIfTerminated := gatewayApi.spec.HTTPIfTerminated }
          match c.CreateAPI api s₁ with
          | (.error e, s₂) => (.error e, s₂)
          | (.ok _, s₂) => (.ok (), s₂)
        | (_, s₁) => (.ok (), s₁)

/-- `gatewayapi.Service.updateKongGatewayApiForService`
(gatewayapi/service.go lines 168-192): compare old and new upstream address
(cluster IP plus first port); on change, fetch the API object under the new
service's name and update it with only the upstream URL replaced. -/
def updateKongGatewayApiForService {σ : Type} (c : KongClient σ)
    (old new : V1Service) (s : σ) : Except GoError Unit × σ :=
  match old.ports, new.ports with
  | oldFirst :: _, newFirst :: _ =>
    let oldUpstreamURL := old.clusterIP ++ ":" ++ toString oldFirst.port
    let newUpstreamURL := new.clusterIP ++ ":" ++ toString newFirst.port
    if oldUpstreamURL == newUpstreamURL then (.ok (), s)
    else
      match c.GetAPI new.name s with
      | (.error e, s₁) => (.error e, s₁)
      | (.ok api, s₁) =>
        match c.UpdateAPI { api with UpstreamURL := newUpstreamURL } s₁ with
        | (.error e, s₂) => (.error e, s₂)
        | (.ok _, s₂) => (.ok (), s₂)
  | _, _ => (.error (.msg ("The service " ++ new.name ++ " should expose at least one port")), s)

/-- `gatewayapi.Service.createKongGatewayApi` (gatewayapi/service.go lines
220-261): create an API object for the service the RouteDefinition's selector
references, only when none exists yet; a non-not-found `GetAPI` error is
propagated. -/
def createKongGatewayApi {σ : Type} (serviceSelectorLabel apiLabel : String)
    (services : List V1Service) (c : KongClient σ) (a : GatewayApi) (s : σ) :
    Except GoError Unit × σ :=
  match lookupLabel a.spec.Selector serviceSelectorLabel with
  | none => (.ok (), s)
  | some serviceName =>
    match c.GetAPI serviceName s with
    | (.ok _, s₁) => (.ok (), s₁)
    | (.error .kongNotFound, s₁) =>
      match getServiceByServiceLabelSelector serviceSelectorLabel apiLabel services serviceName with
      | .error e => (.error e, s₁)
      | .ok service =>
        match service.ports with
        | [] => (.error (.msg ("The service " ++ service.name ++ " should expose at least one port")), s₁)
        | firstPort :: _ =>
          let upstreamURL := service.clusterIP ++ ":" ++ toString firstPort.port
          let api : API :=
            { ID := ""
              Name := service.name
              Hosts := a.spec.Hosts
              URIs := a.spec.Uris
              UpstreamURL := upstreamURL
              StripURI := a.spec.StripURI
              Methods := a.spec.Methods
              PreserveHost := a.spec.PreserveHost
              Retries := a.spec.Retries
              UpstreamConnectTimeout := a.spec.UpstreamConnectTimeout
              UpstreamSendTimeout := a.spec.UpstreamSendTimeout
              UpstreamReadTimeout := a.spec.UpstreamReadTimeout
              HTTPSOnly := a.spec.HTTPSOnly
              HTTPIfTerminated := a.spec.HTTPIfTerminated }
          match c.CreateAPI api s₁ with
          | (.error e, s₂) => (.error e, s₂)
          | (.ok _, s₂) => (.ok (), s₂)
    | (.error e, s₁) => (.error e, s₁)

/-- `gatewayapi.Service.updateKongGatewayApi` (gatewayapi/service.go lines
266-328): both specs must carry the service selector; resolve the NEW backing
service and rebuild the full desired API object.  Same selector value: update
in place.  Different selector value: look up the API object under the old
value (tolerating exactly `kong.ErrNotFound`), delete it when present, then
create the object for the new service. -/
def updateKongGatewayApi {σ : Type} (serviceSelectorLabel apiLabel : String)
    (services : List V1Service) (c : KongClient σ) (old new : GatewayApi)
    (s : σ) : Except GoError Unit × σ :=
  match lookupLabel old.spec.Selector serviceSelectorLabel,
        lookupLabel new.spec.Selector serviceSelectorLabel with
  | some oldService, some newService =>
    match getServiceByServiceLabelSelector serviceSelectorLabel apiLabel services newService with
    | .error e => (.error e, s)
    | .ok srvObj =>
      match srvObj.ports with
      | [] => (.error (.msg ("The service " ++ srvObj.name ++ " should expose at least one port")), s)
      | firstPort :: _ =>
        let upstreamURL := srvObj.clusterIP ++ ":" ++ toString firstPort.port
        let api : API :=
          { ID := ""
            Name := srvObj.name
            Hosts := new.spec.Hosts
            URIs := new.spec.Uris
            UpstreamURL := upstreamURL
            StripURI := new.spec.StripURI
            Methods := new.spec.Methods
            PreserveHost := new.spec.PreserveHost
            Retries := new.spec.Retries
            UpstreamConnectTimeout := new.spec.UpstreamConnectTimeout
            UpstreamSendTimeout := new.spec.UpstreamSendTimeout
            UpstreamReadTimeout := new.spec.UpstreamReadTimeout
            HTTPSOnly := new.spec.HTTPSOnly
            HTTPIfTerminated := new.spec.HTTPIfTerminated }
        if oldService == newService then
          match c.UpdateAPI api s with
          | (.error e, s₁) => (.error e, s₁)
          | (.ok _, s₁) => (.ok (), s₁)
        else
          match c.GetAPI oldService s with
          | (.error e, s₁) =>
            if e == .kongNotFound then
              match c.CreateAPI api s₁ with
              | (.error e₂, s₂) => (.error e₂, s₂)
              | (.ok _, s₂) => (.ok (), s₂)
            else (.error e, s₁)
          | (.ok _, s₁) =>
            match c.DeleteAPI oldService s₁ with
            | (.error e, s₂) => (.error e, s₂)
            | (.ok _, s₂) =>
              match c.CreateAPI api s₂ with
              | (.error e, s₃) => (.error e, s₃)
              | (.ok _, s₃) => (.ok (), s₃)
  | _, _ => (.error (.msg ("The gateway api resource " ++ new.name ++ " must have a service selector set")), s)

/-- `gatewayapi.Service.deleteKongGatewayApi` (gatewayapi/service.go lines
331-351): delete the API object under the selector value; a `kong.ErrNotFound`
lookup outcome is success (nothing to delete), any other lookup error is
propagated. -/
def deleteKongGatewayApi {σ : Type} (serviceSelectorLabel : String)
    (c : KongClient σ) (a : GatewayApi) (s : σ) : Except GoError Unit × σ :=
  match lookupLabel a.spec.Selector serviceSelectorLabel with
  | none => (.ok (), s)
  | some apiName =>
    match c.GetAPI apiName s with
    | (.error .kongNotFound, s₁) => (.ok (), s₁)
    | (.error e, s₁) => (.error e, s₁)
    | (.ok _, s₁) =>
      match c.DeleteAPI apiName s₁ with
      | (.error e, s₂) => (.error e, s₂)
      | (.ok _, s₂) => (.ok (), s₂)

/-- `gatewayapi.Service.processServiceEvent` (gatewayapi/service.go lines
92-100): only `ADDED` service events act. -/
def processServiceEvent {σ : Type} (apiLabel : String)
    (getGatewayApi : String → Except GoError GatewayApi)
    (c : KongClient σ) (e : ServiceEvent) (s : σ) : Except GoError Unit × σ :=
  if e.type == "ADDED" then
    createKongGatewayApiForService apiLabel getGatewayApi c e.Object s
  else (.ok (), s)

/-- `gatewayapi.Service.processServiceUpdateEvent`. -/
def processServiceUpdateEvent {σ : Type} (c : KongClient σ)
    (e : ServiceUpdateEvent) (s : σ) : Except GoError Unit × σ :=
  updateKongGatewayApiForService c e.Old e.New s

/-- `gatewayapi.Service.processGatewayApiEvent` (gatewayapi/service.go lines
194-208): `ADDED` creates, `DELETED` deletes, everything else is ignored. -/
def processGatewayApiEvent {σ : Type} (serviceSelectorLabel apiLabel : String)
    (services : List V1Service) (c : KongClient σ) (e : Event) (s : σ) :
    Except GoError Unit × σ :=
  if e.type == "ADDED" then
    createKongGatewayApi serviceSelectorLabel apiLabel services c e.Object s
  else if e.type == "DELETED" then
    deleteKongGatewayApi serviceSelectorLabel c e.Object s
  else (.ok (), s)

/-- `gatewayapi.Service.processGatewayApiUpdateEvent`. -/
def processGatewayApiUpdateEvent {σ : Type} (serviceSelectorLabel apiLabel : String)
    (services : List V1Service) (c : KongClient σ) (e : UpdateEvent) (s : σ) :
    Except GoError Unit × σ :=
  updateKongGatewayApi serviceSelectorLabel apiLabel services c e.Old e.New s

end gatewayapi

namespace apiplugin

/-- `apiplugin.Event`. -/
structure Event where
  type : String
  Object : ApiPlugin
  deriving DecidableEq, Repr

/-- The loop body of `apiplugin.Service.attachServicePlugins` over the listed
ApiPlugin resources: for each, build the kong plugin (name plus config),
check attachment via `APIHasPlugin` and add the plugin only when absent;
the first error aborts the loop. -/
def attachLoop {σ : Type} (c : KongClient σ) (serviceName : String) :
    List ApiPlugin → σ → Except GoError Unit × σ
  | [], s => (.ok (), s)
  | plugin :: rest, s =>
    let kongPlugin : Plugin :=
      { ID := "", APIID := "", Name := plugin.spec.name,
        Config := plugin.spec.config, Enabled := false }
    match APIHasPlugin c serviceName kongPlugin.Name s with
    | (.error e, s₁) => (.error e, s₁)
    | (.ok hasPlugin, s₁) =>
      if !hasPlugin then
        match c.AddPlugin serviceName kongPlugin s₁ with
        | (.error e, s₂) => (.error e, s₂)
        | (.ok _, s₂) => attachLoop c serviceName rest s₂
      else attachLoop c serviceName rest s₁

/-- `apiplugin.Service.attachServicePlugins` (apiplugin/service.go lines
85-117): list the ApiPlugin resources whose metadata carries the
plugin-service-selector label with the service's name (the informer list,
filtered by a label selector this function builds — and here the source DOES
reassign `selector = selector.Add(*req)`), then run the check-then-attach
loop against the API object saved under the service's name. -/
def attachServicePlugins {σ : Type} (pluginServiceSelectorLabel : String)
    (plugins : List ApiPlugin) (c : KongClient σ) (v1s : V1Service) (s : σ) :
    Except GoError Unit × σ :=
  let selector := Selector.add [] (.keyEquals pluginServiceSelectorLabel v1s.name)
  let listed := plugins.filter (fun p => selectorMatches selector p.labels)
  attachLoop c v1s.name listed s

/-- `apiplugin.Service.attachPluginToService` (apiplugin/service.go lines
143-173): the plugin's spec selector must carry the service name; the API
object must exist (`GetAPI` errors, `kong.ErrNotFound` included, are
propagated); then check-then-attach. -/
def attachPluginToService {σ : Type} (pluginServiceSelectorLabel : String)
    (c : KongClient σ) (p : ApiPlugin) (s : σ) : Except GoError Unit × σ :=
  match lookupLabel p.spec.selector pluginServiceSelectorLabel with
  | none => (.error (.msg ("The service selector (" ++ pluginServiceSelectorLabel ++ ") was not provided in the plugin")), s)
  | some serviceName =>
    match c.GetAPI serviceName s with
    | (.error e, s₁) => (.error e, s₁)
    | (.ok _, s₁) =>
      let kongPlugin : Plugin :=
        { ID := "", APIID := "", Name := p.spec.name,
          Config := p.spec.config, Enabled := false }
      match APIHasPlugin c serviceName kongPlugin.Name s₁ with
      | (.error e, s₂) => (.error e, s₂)
      | (.ok hasPlugin, s₂) =>
        if !hasPlugin then
          match c.AddPlugin serviceName kongPlugin s₂ with
          | (.error e, s₃) => (.error e, s₃)
          | (.ok _, s₃) => (.ok (), s₃)
        else (.ok (), s₂)

/-- `apiplugin.Service.updatePlugin` (apiplugin/service.go lines 177-204):
resolve the backing service's API object (`GetAPI` errors propagated), then
update the plugin ONLY when one of that name is already attached; otherwise
do nothing (modification never implicitly creates). -/
def updatePlugin {σ : Type} (pluginServiceSelectorLabel : String)
    (c : KongClient σ) (p : ApiPlugin) (s : σ) : Except GoError Unit × σ :=
  match lookupLabel p.spec.selector pluginServiceSelectorLabel with
  | none => (.error (.msg ("The service selector (" ++ pluginServiceSelectorLabel ++ ") was not provided in the plugin")), s)
  | some serviceName =>
    match c.GetAPI serviceName s with
    | (.error e, s₁) => (.error e, s₁)
    | (.ok _, s₁) =>
      let kongPlugin : Plugin :=
        { ID := "", APIID := "", Name := p.spec.name,
          Config := p.spec.config, Enabled := false }
      match APIHasPlugin c serviceName kongPlugin.Name s₁ with
      | (.error e, s₂) => (.error e, s₂)
      | (.ok hasPlugin, s₂) =>
        if hasPlugin then
          match c.UpdatePlugin serviceName kongPlugin s₂ with
          | (.error e, s₃) => (.error e, s₃)
          | (.ok _, s₃) => (.ok (), s₃)
        else (.ok (), s₂)

/-- `apiplugin.Service.detachPluginFromService` (apiplugin/service.go lines
207-229): resolve the backing service's API object (`GetAPI` errors
propagated), then remove the plugin ONLY when currently attached; otherwise
do nothing. -/
def detachPluginFromService {σ : Type} (pluginServiceSelectorLabel : String)
    (c : KongClient σ) (p : ApiPlugin) (s : σ) : Except GoError Unit × σ :=
  match lookupLabel p.spec.selector pluginServiceSelectorLabel with
  | none => (.error (.msg ("The service selector (" ++ pluginServiceSelectorLabel ++ ") was not provided in the plugin")), s)
  | some serviceName =>
    match c.GetAPI serviceName s with
    | (.error e, s₁) => (.error e, s₁)
    | (.ok _, s₁) =>
      match APIHasPlugin c serviceName p.spec.name s₁ with
      | (.error e, s₂) => (.error e, s₂)
      | (.ok hasPlugin, s₂) =>
        if hasPlugin then
          match RemovePlugin c serviceName p.spec.name s₂ with
          | (.error e, s₃) => (.error e, s₃)
          | (.ok _, s₃) => (.ok (), s₃)
        else (.ok (), s₂)

/-- `apiplugin.Service.processServiceEvent` (apiplugin/service.go lines
73-82): `ADDED` and `MODIFIED` service events both attach the service's
plugins. -/
def processServiceEvent {σ : Type} (pluginServiceSelectorLabel : String)
    (plugins : List ApiPlugin) (c : KongClient σ) (e : ServiceEvent) (s : σ) :
    Except GoError Unit × σ :=
  if e.type == "ADDED" || e.type == "MODIFIED" then
    attachServicePlugins pluginServiceSelectorLabel plugins c e.Object s
  else (.ok (), s)

/-- `apiplugin.Service.processPluginEvent` (apiplugin/service.go lines
119-138). -/
def processPluginEvent {σ : Type} (pluginServiceSelectorLabel : String)
    (c : KongClient σ) (e : Event) (s : σ) : Except GoError Unit × σ :=
  if e.type == "ADDED" then
    attachPluginToService pluginServiceSelectorLabel c e.Object s
  else if e.type == "MODIFIED" then
    updatePlugin pluginServiceSelectorLabel c e.Object s
  else if e.type == "DELETED" then
    detachPluginFromService pluginServiceSelectorLabel c e.Object s
  else (.ok (), s)

end apiplugin

/-- A decoded object handed to a watch event callback.  The informer hands the
callbacks `interface{}` values; the type assertions in the callbacks
(`obj.(*v1.Service)`, `obj.(*ApiPlugin)`, `obj.(*GatewayApi)`) either succeed
or fail, which this sum type captures (`other` stands for any value of an
unexpected dynamic type). -/
inductive WatchObj where
  | service (s : V1Service)
  | gatewayApi (a : GatewayApi)
  | apiPlugin (p : ApiPlugin)
  | other (desc : String)
  deriving DecidableEq, Repr

namespace gatewayapi

/-- The `eventCallback` of `gatewayapi.Service.monitorServiceEvents`
(gatewayapi/service.go lines 360-370): a failed type assertion logs and
returns without sending; `none` models "no event emitted on the channel". -/
def serviceEventCallback (evType : String) (obj : WatchObj) : Option ServiceEvent :=
  match obj with
  | .service service => some { type := evType, Object := service }
  | _ => none

/-- The `updateEventCallback` of `gatewayapi.Service.monitorServiceEvents`
(lines 371-382): both old and new must convert to services. -/
def serviceUpdateEventCallback (old new : WatchObj) : Option ServiceUpdateEvent :=
  match old, new with
  | .service oldSrv, .service newSrv => some { Old := oldSrv, New := newSrv }
  | _, _ => none

/-- The `eventCallback` of `gatewayapi.Service.monitorGatewayApiEvents`
(lines 415-425). -/
def gatewayApiEventCallback (evType : String) (obj : WatchObj) : Option Event :=
  match obj with
  | .gatewayApi a => some { type := evType, Object := a }
  | _ => none

end gatewayapi

namespace apiplugin

/-- The `eventCallback` of `apiplugin.Service.monitorPluginEvents`
(apiplugin/service.go lines 273-283): a failed type assertion logs and
returns without sending. -/
def pluginEventCallback (evType : String) (obj : WatchObj) : Option Event :=
  match obj with
  | .apiPlugin plugin => some { type := evType, Object := plugin }
  | _ => none

end apiplugin

/-- The reference gateway state: the kong-owned API objects and, for each, the
attached plugin instances keyed by the owning API's name.  `nextPluginID`
models kong's id assignment for created plugins (ids are opaque to the
controllers; APIs are addressed by name throughout, so stored APIs keep
`ID = ""`). -/
structure Gateway where
  apis : List API
  plugins : List (String × Plugin)
  nextPluginID : Nat
  deriving DecidableEq, Repr

/-- Lookup of an API object by name (the controllers always address API
objects by the backing service's name). -/
def Gateway.findAPI (g : Gateway) (name : String) : Option API :=
  g.apis.find? (fun a => a.Name == name)

/-- `GET /apis/{name}`: kong's 404 is the `ErrNotFound` of `client.go`. -/
def Gateway.getAPI (g : Gateway) (nameOrID : String) : Except GoError API :=
  match g.findAPI nameOrID with
  | some api => .ok api
  | none => .error .kongNotFound

/-- `POST /apis/`: the name must be unique; a conflict is a non-201 status,
which `client.go` turns into a generic error. -/
def Gateway.createAPI (g : Gateway) (api : API) : Except GoError API × Gateway :=
  match g.findAPI api.Name with
  | some _ => (.error (.msg "Failed to create the specified API with status code 409"), g)
  | none => (.ok api, { g with apis := g.apis ++ [api] })

/-- `PUT /apis/{nameOrID}` (full replace): `client.go` addresses the object by
id when the payload carries one, by name otherwise; a missing object is the
distinguished `ErrNotFound`. -/
def Gateway.updateAPI (g : Gateway) (api : API) : Except GoError API × Gateway :=
  let nameOrID := if api.ID != "" then api.ID else api.Name
  match g.findAPI nameOrID with
  | none => (.error .kongNotFound, g)
  | some _ =>
    (.ok api, { g with apis := g.apis.map (fun a => if a.Name == nameOrID then api else a) })

/-- `DELETE /apis/{name}`: a missing object is the distinguished
`ErrNotFound`; deleting an API cascades to its plugins. -/
def Gateway.deleteAPI (g : Gateway) (nameOrID : String) : Except GoError Unit × Gateway :=
  match g.findAPI nameOrID with
  | none => (.error .kongNotFound, g)
  | some _ =>
    (.ok (), { g with apis := g.apis.filter (fun a => !(a.Name == nameOrID)),
                      plugins := g.plugins.filter (fun pr => !(pr.1 == nameOrID)) })

/-- The plugin instances attached to the named API. -/
def Gateway.pluginsFor (g : Gateway) (apiName : String) : List Plugin :=
  (g.plugins.filter (fun pr => pr.1 == apiName)).map (fun pr => pr.2)

/-- `GET /apis/{name}/plugins/`: `ListApiPlugins` in `client.go` checks only
for status 200, so a 404 on a missing API becomes a generic error, not
`ErrNotFound`. -/
def Gateway.listApiPlugins (g : Gateway) (apiName : String) : Except GoError PluginList :=
  match g.findAPI apiName with
  | none => .error (.msg ("Failed to retrieve plugins for the " ++ apiName ++ " api with status code 404"))
  | some _ => .ok { Total := ((g.pluginsFor apiName).length : Int), Data := g.pluginsFor apiName }

/-- `POST /apis/{name}/plugins/`: `AddPlugin` in `client.go` checks only for
status 201, so a 404 on a missing API becomes a generic error, not
`ErrNotFound`.  The gateway itself does NOT enforce one-plugin-per-name
(check-before-create is controller logic), so the instance is appended
unconditionally, with a fresh id assigned. -/
def Gateway.addPlugin (g : Gateway) (apiName : String) (plugin : Plugin) :
    Except GoError Plugin × Gateway :=
  match g.findAPI apiName with
  | none => (.error (.msg ("Failed to create the new plugin for the " ++ apiName ++ " api with status code 404")), g)
  | some api =>
    let stored := { plugin with ID := toString g.nextPluginID, APIID := api.ID, Enabled := true }
    (.ok stored, { g with plugins := g.plugins ++ [(apiName, stored)],
                          nextPluginID := g.nextPluginID + 1 })

/-- `PATCH /apis/{name}/plugins/{pluginName}`: `UpdatePlugin` in `client.go`
checks only for status 200, so a missing API or plugin becomes a generic
error; on success the named instance's configuration is replaced. -/
def Gateway.updatePlugin (g : Gateway) (apiName : String) (plugin : Plugin) :
    Except GoError Plugin × Gateway :=
  match g.findAPI apiName with
  | none => (.error (.msg ("Failed to update the " ++ plugin.Name ++ " plugin for the " ++ apiName ++ " api with status code 404")), g)
  | some _ =>
    if findPluginNamed (g.pluginsFor apiName) plugin.Name then
      (.ok plugin, { g with plugins := g.plugins.map (fun pr =>
        if pr.1 == apiName && pr.2.Name == plugin.Name
        then (pr.1, { pr.2 with Config := plugin.Config }) else pr) })
    else
      (.error (.msg ("Failed to update the " ++ plugin.Name ++ " plugin for the " ++ apiName ++ " api with status code 404")), g)

/-- `DELETE /apis/{name}/plugins/{id}`: `RemovePlugin` in `client.go` checks
only for status 204, so a missing instance becomes a generic error. -/
def Gateway.deletePluginByID (g : Gateway) (apiName pluginID : String) :
    Except GoError Unit × Gateway :=
  if (g.plugins.filter (fun pr => pr.1 == apiName && pr.2.ID == pluginID)).isEmpty then
    (.error (.msg ("Failed to remove the plugin " ++ pluginID ++ " from api " ++ apiName ++ " with status code 404")), g)
  else
    (.ok (), { g with plugins := g.plugins.filter (fun pr => !(pr.1 == apiName && pr.2.ID == pluginID)) })

/-- The primitive kong operations instantiated with the reference gateway
state. -/
def kongGw : KongClient Gateway :=
  { GetAPI := fun n g => (g.getAPI n, g)
    CreateAPI := fun api g => g.createAPI api
    UpdateAPI := fun api g => g.updateAPI api
    DeleteAPI := fun n g => g.deleteAPI n
    ListApiPlugins := fun n g => (g.listApiPlugins n, g)
    AddPlugin := fun n p g => g.addPlugin n p
    UpdatePlugin := fun n p g => g.updatePlugin n p
    DeletePluginByID := fun n i g => g.deletePluginByID n i }

/-- How many API objects carry a given name. -/
def Gateway.countAPIs (g : Gateway) (name : String) : Nat :=
  (g.apis.filter (fun a => a.Name == name)).length

/-- How many plugin instances of a given name are attached to a given API. -/
def Gateway.countPlugins (g : Gateway) (apiName pluginName : String) : Nat :=
  (g.plugins.filter (fun pr => pr.1 == apiName && pr.2.Name == pluginName)).length

/-- Concrete fixtures for the witnesses: the spec's `myapp-auth` scenario. -/
def svcAuth : V1Service :=
  { name := "myapp-auth"
    labels := [("kong.gateway.api", "myapp-routes")]
    clusterIP := "10.0.0.5"
    ports := [{ name := "auth", port := 3000 }, { name := "auth2", port := 3001 }] }

/-- The `myapp-auth` RouteDefinition spec of the spec's scenario. -/
def routesSpec : GatewaySpec :=
  { Hosts := []
    Uris := ["/oauth", "/authenticate"]
    StripURI := some true
    Methods := []
    PreserveHost := none
    Retries := 5
    UpstreamConnectTimeout := 60000
    UpstreamSendTimeout := 60000
    UpstreamReadTimeout := 60000
    HTTPSOnly := some false
    HTTPIfTerminated := none
    Selector := [("service", "myapp-auth")] }

/-- The `myapp-auth` RouteDefinition resource. -/
def gaRoutes : GatewayApi := { name := "myapp-routes", spec := routesSpec }

/-- A resource-store lookup of GatewayApi resources holding exactly
`gaRoutes`. -/
def lookupGA : String → Except GoError GatewayApi :=
  fun n => if n == "myapp-routes" then .ok gaRoutes else .error .gatewayNotFound

/-- The empty gateway. -/
def emptyGw : Gateway := { apis := [], plugins := [], nextPluginID := 0 }

/-- The kong API object the `myapp-auth` scenario creates. -/
def apiAuth : API :=
  { ID := "", Name := "myapp-auth", Hosts := [], URIs := ["/oauth", "/authenticate"],
    UpstreamURL := "10.0.0.5:3000", StripURI := some true, Methods := [],
    PreserveHost := none, Retries := 5, UpstreamConnectTimeout := 60000,
    UpstreamSendTimeout := 60000, UpstreamReadTimeout := 60000,
    HTTPSOnly := some false, HTTPIfTerminated := none }

/-- A gateway already holding the `myapp-auth` API object. -/
def gwAuth : Gateway := { apis := [apiAuth], plugins := [], nextPluginID := 0 }

/-- The `myapp-auth` service after its first port moved to 3001. -/
def svcAuthP2 : V1Service :=
  { name := "myapp-auth"
    labels := [("kong.gateway.api", "myapp-routes")]
    clusterIP := "10.0.0.5"
    ports := [{ name := "auth", port := 3001 }] }

/-- A kong client whose every call fails with a transport-style error, as when
the gateway is unreachable. -/
def downClient : KongClient Unit :=
  { GetAPI := fun _ s => (.error (.msg "connection refused"), s)
    CreateAPI := fun _ s => (.error (.msg "connection refused"), s)
    UpdateAPI := fun _ s => (.error (.msg "connection refused"), s)
    DeleteAPI := fun _ s => (.error (.msg "connection refused"), s)
    ListApiPlugins := fun _ s => (.error (.msg "connection refused"), s)
    AddPlugin := fun _ _ s => (.error (.msg "connection refused"), s)
    UpdatePlugin := fun _ _ s => (.error (.msg "connection refused"), s)
    DeletePluginByID := fun _ _ s => (.error (.msg "connection refused"), s) }

/-- A service carrying NO labels at all: it satisfies neither of the two
requirements the lookup helper claims to apply. -/
def svcPlain : V1Service :=
  { name := "unlabeled-svc", labels := [], clusterIP := "10.0.0.9",
    ports := [{ name := "http", port := 80 }] }

/-- A second backend service, the reassignment target of the C2 witness. -/
def svcOther : V1Service :=
  { name := "other-svc"
    labels := [("kong.gateway.api", "myapp-routes"), ("service", "other-svc")]
    clusterIP := "10.0.1.7"
    ports := [{ name := "http", port := 8080 }] }

/-- The `myapp-routes` RouteDefinition after its selector moved to
`other-svc`. -/
def gaOther : GatewayApi :=
  { name := "myapp-routes"
    spec := { routesSpec with Selector := [("service", "other-svc")] } }

/-- The API object the reassigned RouteDefinition produces for
`other-svc`. -/
def apiOther : API :=
  { ID := "", Name := "other-svc", Hosts := [], URIs := ["/oauth", "/authenticate"],
    UpstreamURL := "10.0.1.7:8080", StripURI := some true, Methods := [],
    PreserveHost := none, Retries := 5, UpstreamConnectTimeout := 60000,
    UpstreamSendTimeout := 60000, UpstreamReadTimeout := 60000,
    HTTPSOnly := some false, HTTPIfTerminated := none }

/-- The plugin instance the reference gateway stores when `AddPlugin`
succeeds: the requested plugin with the fresh id, the owning API's id and the
enabled flag filled in (proof-side abbreviation). -/
def storedPlugin (nid : Nat) (apiID : String) (pl : ApiPlugin) : Plugin :=
  { ID := toString nid, APIID := apiID, Name := pl.spec.name,
    Config := pl.spec.config, Enabled := true }

/-- The API object a controller builds from a RouteDefinition spec, a service
name and a computed upstream address (proof-side abbreviation of the record
literal the controllers inline). -/
def desiredAPI (spec : GatewaySpec) (name upstream : String) : API :=
  { ID := "", Name := name, Hosts := spec.Hosts, URIs := spec.Uris,
    UpstreamURL := upstream, StripURI := spec.StripURI, Methods := spec.Methods,
    PreserveHost := spec.PreserveHost, Retries := spec.Retries,
    UpstreamConnectTimeout := spec.UpstreamConnectTimeout,
    UpstreamSendTimeout := spec.UpstreamSendTimeout,
    UpstreamReadTimeout := spec.UpstreamReadTimeout,
    HTTPSOnly := spec.HTTPSOnly, HTTPIfTerminated := spec.HTTPIfTerminated }

/-- The spec's `key-auth` PluginDefinition for `myapp-auth`. -/
def plKeyAuth : ApiPlugin :=
  { name := "keyauth-def"
    labels := [("service", "myapp-auth")]
    spec := { name := "key-auth", config := [("hide_credentials", "true")],
              selector := [("service", "myapp-auth")] } }

/-- The attached `key-auth` plugin instance, as the gateway stores it. -/
def keyAuthPlugin : Plugin :=
  { ID := "0", APIID := "", Name := "key-auth",
    Config := [("hide_credentials", "true")], Enabled := true }

/-- A gateway holding the `myapp-auth` API object with `key-auth`
attached. -/
def gwAuthPlugged : Gateway :=
  { apis := [apiAuth], plugins := [("myapp-auth", keyAuthPlugin)], nextPluginID := 1 }

/-- A failed linear search leaves nothing for `filter` to keep. -/
theorem filter_eq_nil_of_find?_eq_none {α : Type} (p : α → Bool) (l : List α)
    (h : l.find? p = none) : l.filter p = [] := by
  rw [List.filter_eq_nil_iff]
  exact fun a ha => by simpa using List.find?_eq_none.mp h a ha

/-- `findPluginNamed` distributes over list append as a boolean or. -/
theorem findPluginNamed_append (l₁ l₂ : List Plugin) (n : String) :
    findPluginNamed (l₁ ++ l₂) n = (findPluginNamed l₁ n || findPluginNamed l₂ n) := by
  induction l₁ with
  | nil => simp [findPluginNamed]
  | cons a l ih =>
    cases h : a.Name == n <;> simp [findPluginNamed, h, ih]

/-- `findPluginNamed` is the linear-search form of `List.any` on names. -/
theorem findPluginNamed_eq_any (l : List Plugin) (n : String) :
    findPluginNamed l n = l.any (fun q => q.Name == n) := by
  induction l with
  | nil => rfl
  | cons a l ih =>
    cases h : a.Name == n <;> simp [findPluginNamed, h, ih]

/-- When no plugin carries the name, filtering by the name keeps nothing. -/
theorem filter_name_nil_of_findPluginNamed_false (l : List Plugin) (n : String)
    (h : findPluginNamed l n = false) : l.filter (fun q => q.Name == n) = [] := by
  rw [findPluginNamed_eq_any, List.any_eq_false] at h
  exact List.filter_eq_nil_iff.mpr h

/-- Counting attached plugins factors through `pluginsFor`. -/
theorem countPlugins_eq_pluginsFor (g : Gateway) (a n : String) :
    g.countPlugins a n = ((g.pluginsFor a).filter (fun q => q.Name == n)).length := by
  unfold Gateway.countPlugins Gateway.pluginsFor
  induction g.plugins with
  | nil => rfl
  | cons x l ih =>
    cases h1 : x.1 == a <;> cases h2 : x.2.Name == n <;>
      simp [List.filter_cons, h1, h2, ih]

/-- C1: for a Service Added event whose service carries the api-reference
label, whose GatewayApi resource lookup succeeds, and for which no kong API
object exists under the service's name, the controller creates exactly one
API object (a single append to the gateway's API list) named after the
service, with the upstream URL built from the cluster IP and the FIRST
declared port (later ports ignored), and with hosts, uris, strip_uri,
methods, preserve_host, retries, timeouts and https fields copied from the
GatewayApi spec. -/
theorem C1_service_added_creates_api (apiLabel gname : String)
    (getGA : String → Except GoError GatewayApi) (ga : GatewayApi)
    (v1s : V1Service) (p : ServicePort) (rest : List ServicePort) (g : Gateway)
    (hlabel : lookupLabel v1s.labels apiLabel = some gname)
    (hga : getGA gname = .ok ga)
    (hports : v1s.ports = p :: rest)
    (hmissing : g.findAPI v1s.name = none) :
    ∃ api : API,
      gatewayapi.processServiceEvent apiLabel getGA kongGw { type := "ADDED", Object := v1s } g
        = (.ok (), { g with apis := g.apis ++ [api] }) ∧
      api.Name = v1s.name ∧
      api.UpstreamURL = v1s.clusterIP ++ ":" ++ toString p.port ∧
      api.Hosts = ga.spec.Hosts ∧
      api.URIs = ga.spec.Uris ∧
      api.StripURI = ga.spec.StripURI ∧
      api.Methods = ga.spec.Methods ∧
      api.PreserveHost = ga.spec.PreserveHost ∧
      api.Retries = ga.spec.Retries ∧
      api.UpstreamConnectTimeout = ga.spec.UpstreamConnectTimeout ∧
      api.UpstreamSendTimeout = ga.spec.UpstreamSendTimeout ∧
      api.UpstreamReadTimeout = ga.spec.UpstreamReadTimeout ∧
      api.HTTPSOnly = ga.spec.HTTPSOnly ∧
      api.HTTPIfTerminated = ga.spec.HTTPIfTerminated ∧
      Gateway.countAPIs { g with apis := g.apis ++ [api] } v1s.name = 1 := by
  refine ⟨{ ID := "", Name := v1s.name, Hosts := ga.spec.Hosts, URIs := ga.spec.Uris,
            UpstreamURL := v1s.clusterIP ++ ":" ++ toString p.port,
            StripURI := ga.spec.StripURI, Methods := ga.spec.Methods,
            PreserveHost := ga.spec.PreserveHost, Retries := ga.spec.Retries,
            UpstreamConnectTimeout := ga.spec.UpstreamConnectTimeout,
            UpstreamSendTimeout := ga.spec.UpstreamSendTimeout,
            UpstreamReadTimeout := ga.spec.UpstreamReadTimeout,
            HTTPSOnly := ga.spec.HTTPSOnly, HTTPIfTerminated := ga.spec.HTTPIfTerminated },
          ?_, rfl, rfl, rfl, rfl, rfl, rfl, rfl, rfl, rfl, rfl, rfl, rfl, rfl, ?_⟩
  · simp only [gatewayapi.processServiceEvent, gatewayapi.createKongGatewayApiForService,
      hlabel, hga, hports, kongGw, Gateway.getAPI, Gateway.createAPI, hmissing,
      beq_self_eq_true, if_true]
  · unfold Gateway.countAPIs
    have hnil : g.apis.filter (fun a => a.Name == v1s.name) = [] :=
      filter_eq_nil_of_find?_eq_none _ _ hmissing
    simp [List.filter_append, hnil]

/-- Witness for C1: the spec's `myapp-auth` scenario, starting from the empty
gateway. -/
theorem C1_witness :
    lookupLabel svcAuth.labels "kong.gateway.api" = some "myapp-routes" ∧
    lookupGA "myapp-routes" = .ok gaRoutes ∧
    svcAuth.ports = { name := "auth", port := 3000 } :: [{ name := "auth2", port := 3001 }] ∧
    emptyGw.findAPI svcAuth.name = none ∧
    (∃ api : API,
      gatewayapi.processServiceEvent "kong.gateway.api" lookupGA kongGw
          { type := "ADDED", Object := svcAuth } emptyGw
        = (.ok (), { emptyGw with apis := emptyGw.apis ++ [api] }) ∧
      api.Name = svcAuth.name ∧
      api.UpstreamURL = svcAuth.clusterIP ++ ":" ++ toString ({ name := "auth", port := 3000 } : ServicePort).port ∧
      api.Hosts = gaRoutes.spec.Hosts ∧
      api.URIs = gaRoutes.spec.Uris ∧
      api.StripURI = gaRoutes.spec.StripURI ∧
      api.Methods = gaRoutes.spec.Methods ∧
      api.PreserveHost = gaRoutes.spec.PreserveHost ∧
      api.Retries = gaRoutes.spec.Retries ∧
      api.UpstreamConnectTimeout = gaRoutes.spec.UpstreamConnectTimeout ∧
      api.UpstreamSendTimeout = gaRoutes.spec.UpstreamSendTimeout ∧
      api.UpstreamReadTimeout = gaRoutes.spec.UpstreamReadTimeout ∧
      api.HTTPSOnly = gaRoutes.spec.HTTPSOnly ∧
      api.HTTPIfTerminated = gaRoutes.spec.HTTPIfTerminated ∧
      Gateway.countAPIs { emptyGw with apis := emptyGw.apis ++ [api] } svcAuth.name = 1) :=
  ⟨rfl, rfl, rfl, rfl,
    C1_service_added_creates_api "kong.gateway.api" "myapp-routes" lookupGA gaRoutes svcAuth
      { name := "auth", port := 3000 } [{ name := "auth2", port := 3001 }] emptyGw
      rfl rfl rfl rfl⟩

/-- C4: for a Service Modified event where both snapshots expose at least one
port, stated over EVERY kong client (so an unchanged address provably issues
no gateway call at all): (a) equal old/new upstream addresses are a no-op
returning success with the state untouched; (b) on a changed address the
controller fetches the API object under the new service's name and hands
`UpdateAPI` exactly the fetched object with only the upstream URL replaced —
hosts, uris, methods (and every other field) are those of the fetched object;
(c) a not-found fetch is propagated as an error with no state change (no API
object is created). -/
theorem C4_service_modified_updates_only_upstream {σ : Type} (c : KongClient σ)
    (old new : V1Service) (po pn : ServicePort) (ro rn : List ServicePort)
    (s : σ)
    (hpo : old.ports = po :: ro) (hpn : new.ports = pn :: rn) :
    (old.clusterIP ++ ":" ++ toString po.port = new.clusterIP ++ ":" ++ toString pn.port →
      gatewayapi.processServiceUpdateEvent c { Old := old, New := new } s = (.ok (), s)) ∧
    (old.clusterIP ++ ":" ++ toString po.port ≠ new.clusterIP ++ ":" ++ toString pn.port →
      (∀ api s₁, c.GetAPI new.name s = (.ok api, s₁) →
        ∃ updated : API,
          (∀ a₂ s₂, c.UpdateAPI updated s₁ = (.ok a₂, s₂) →
            gatewayapi.processServiceUpdateEvent c { Old := old, New := new } s = (.ok (), s₂)) ∧
          (∀ e s₂, c.UpdateAPI updated s₁ = (.error e, s₂) →
            gatewayapi.processServiceUpdateEvent c { Old := old, New := new } s = (.error e, s₂)) ∧
          updated.UpstreamURL = new.clusterIP ++ ":" ++ toString pn.port ∧
          updated.Hosts = api.Hosts ∧
          updated.URIs = api.URIs ∧
          updated.Methods = api.Methods ∧
          updated.ID = api.ID ∧
          updated.Name = api.Name ∧
          updated.StripURI = api.StripURI ∧
          updated.PreserveHost = api.PreserveHost ∧
          updated.Retries = api.Retries ∧
          updated.UpstreamConnectTimeout = api.UpstreamConnectTimeout ∧
          updated.UpstreamSendTimeout = api.UpstreamSendTimeout ∧
          updated.UpstreamReadTimeout = api.UpstreamReadTimeout ∧
          updated.HTTPSOnly = api.HTTPSOnly ∧
          updated.HTTPIfTerminated = api.HTTPIfTerminated) ∧
      (∀ s₁, c.GetAPI new.name s = (.error .kongNotFound, s₁) →
        gatewayapi.processServiceUpdateEvent c { Old := old, New := new } s =
          (.error .kongNotFound, s₁))) := by
  refine ⟨fun heq => ?_, fun hne => ⟨fun api s₁ hget => ?_, fun s₁ hget => ?_⟩⟩
  · simp only [gatewayapi.processServiceUpdateEvent,
      gatewayapi.updateKongGatewayApiForService, hpo, hpn]
    rw [if_pos (by exact beq_iff_eq.mpr heq)]
  · refine ⟨{ api with UpstreamURL := new.clusterIP ++ ":" ++ toString pn.port },
      fun a₂ s₂ hupd => ?_, fun e s₂ hupd => ?_,
      rfl, rfl, rfl, rfl, rfl, rfl, rfl, rfl, rfl, rfl, rfl, rfl, rfl, rfl⟩ <;>
    · simp only [gatewayapi.processServiceUpdateEvent,
        gatewayapi.updateKongGatewayApiForService, hpo, hpn]
      rw [if_neg (by simpa using hne), hget]
      dsimp only
      rw [hupd]
  · simp only [gatewayapi.processServiceUpdateEvent,
      gatewayapi.updateKongGatewayApiForService, hpo, hpn]
    rw [if_neg (by simpa using hne), hget]

/-- Witness for C4: an unchanged address is a no-op on `gwAuth`; moving the
first port from 3000 to 3001 hands `UpdateAPI` the fetched object with only
the upstream URL changed. -/
theorem C4_witness :
    (gatewayapi.processServiceUpdateEvent kongGw { Old := svcAuth, New := svcAuth } gwAuth
       = (.ok (), gwAuth)) ∧
    (∃ updated : API,
      (∀ a₂ s₂, kongGw.UpdateAPI updated gwAuth = (.ok a₂, s₂) →
        gatewayapi.processServiceUpdateEvent kongGw { Old := svcAuth, New := svcAuthP2 } gwAuth = (.ok (), s₂)) ∧
      (∀ e s₂, kongGw.UpdateAPI updated gwAuth = (.error e, s₂) →
        gatewayapi.processServiceUpdateEvent kongGw { Old := svcAuth, New := svcAuthP2 } gwAuth = (.error e, s₂)) ∧
      updated.UpstreamURL = svcAuthP2.clusterIP ++ ":" ++ toString ({ name := "auth", port := 3001 } : ServicePort).port ∧
      updated.Hosts = apiAuth.Hosts ∧
      updated.URIs = apiAuth.URIs ∧
      updated.Methods = apiAuth.Methods ∧
      updated.ID = apiAuth.ID ∧
      updated.Name = apiAuth.Name ∧
      updated.StripURI = apiAuth.StripURI ∧
      updated.PreserveHost = apiAuth.PreserveHost ∧
      updated.Retries = apiAuth.Retries ∧
      updated.UpstreamConnectTimeout = apiAuth.UpstreamConnectTimeout ∧
      updated.UpstreamSendTimeout = apiAuth.UpstreamSendTimeout ∧
      updated.UpstreamReadTimeout = apiAuth.UpstreamReadTimeout ∧
      updated.HTTPSOnly = apiAuth.HTTPSOnly ∧
      updated.HTTPIfTerminated = apiAuth.HTTPIfTerminated) :=
  by
  have hne : svcAuth.clusterIP ++ ":" ++ toString ({ name := "auth", port := 3000 } : ServicePort).port
      ≠ svcAuthP2.clusterIP ++ ":" ++ toString ({ name := "auth", port := 3001 } : ServicePort).port := by
    decide
  exact ⟨(C4_service_modified_updates_only_upstream kongGw svcAuth svcAuth
      { name := "auth", port := 3000 } { name := "auth", port := 3000 }
      [{ name := "auth2", port := 3001 }] [{ name := "auth2", port := 3001 }] gwAuth
      rfl rfl).1 rfl,
    ((C4_service_modified_updates_only_upstream kongGw svcAuth svcAuthP2
      { name := "auth", port := 3000 } { name := "auth", port := 3001 }
      [{ name := "auth2", port := 3001 }] [] gwAuth
      rfl rfl).2 hne).1 apiAuth gwAuth rfl⟩

/-- Filtering by `p` after keeping only elements failing `p` leaves nothing. -/
theorem filter_filter_not_eq_nil {α : Type} (p : α → Bool) (l : List α) :
    (l.filter (fun a => !(p a))).filter p = [] := by
  induction l with
  | nil => rfl
  | cons a l ih => cases h : p a <;> simp [List.filter_cons, h, ih]

/-- C5: for a RouteDefinition Deleted event whose spec carries the service
selector, stated over EVERY kong client: a not-found lookup of the API object
returns success with the state exactly as the lookup left it (so no delete
call is issued); any other lookup error is propagated unchanged; when the
lookup succeeds the delete call's outcome is the operation's outcome; and, on
the reference gateway, an existing object is actually deleted (zero API
objects remain under the name). -/
theorem C5_route_deleted_not_found_is_success {σ : Type} (c : KongClient σ)
    (sel : String) (a : GatewayApi) (apiName : String) (s : σ)
    (hsel : lookupLabel a.spec.Selector sel = some apiName) :
    (∀ s₁, c.GetAPI apiName s = (.error .kongNotFound, s₁) →
      gatewayapi.deleteKongGatewayApi sel c a s = (.ok (), s₁)) ∧
    (∀ e s₁, c.GetAPI apiName s = (.error e, s₁) → e ≠ .kongNotFound →
      gatewayapi.deleteKongGatewayApi sel c a s = (.error e, s₁)) ∧
    (∀ api s₁, c.GetAPI apiName s = (.ok api, s₁) →
      (∀ u s₂, c.DeleteAPI apiName s₁ = (.ok u, s₂) →
        gatewayapi.deleteKongGatewayApi sel c a s = (.ok (), s₂)) ∧
      (∀ e s₂, c.DeleteAPI apiName s₁ = (.error e, s₂) →
        gatewayapi.deleteKongGatewayApi sel c a s = (.error e, s₂))) ∧
    (∀ (g : Gateway) api, g.findAPI apiName = some api →
      ∃ g' : Gateway, gatewayapi.deleteKongGatewayApi sel kongGw a g = (.ok (), g') ∧
        g'.countAPIs apiName = 0) := by
  refine ⟨fun s₁ hget => ?_, fun e s₁ hget hne => ?_,
    fun api s₁ hget => ⟨fun u s₂ hdel => ?_, fun e s₂ hdel => ?_⟩,
    fun g api hfind => ?_⟩
  · simp only [gatewayapi.deleteKongGatewayApi, hsel]
    rw [hget]
  · simp only [gatewayapi.deleteKongGatewayApi, hsel]
    rw [hget]
    cases e with
    | kongNotFound => exact absurd rfl hne
    | gatewayNotFound => rfl
    | serviceNotFound => rfl
    | msg m => rfl
  · simp only [gatewayapi.deleteKongGatewayApi, hsel]
    rw [hget]
    dsimp only
    rw [hdel]
  · simp only [gatewayapi.deleteKongGatewayApi, hsel]
    rw [hget]
    dsimp only
    rw [hdel]
  · refine ⟨Gateway.mk (g.apis.filter (fun x => !(x.Name == apiName)))
      (g.plugins.filter (fun pr => !(pr.1 == apiName))) g.nextPluginID, ?_, ?_⟩
    · simp only [gatewayapi.deleteKongGatewayApi, hsel, kongGw,
        Gateway.getAPI, Gateway.deleteAPI, hfind]
    · unfold Gateway.countAPIs
      simp only [filter_filter_not_eq_nil, List.length_nil]

/-- Witness for C5: deleting the `myapp-auth` RouteDefinition succeeds on the
empty gateway (the API object was already gone), and actually removes the
object on a gateway that holds it. -/
theorem C5_witness :
    lookupLabel gaRoutes.spec.Selector "service" = some "myapp-auth" ∧
    gatewayapi.deleteKongGatewayApi "service" kongGw gaRoutes emptyGw = (.ok (), emptyGw) ∧
    (∃ g' : Gateway, gatewayapi.deleteKongGatewayApi "service" kongGw gaRoutes gwAuth = (.ok (), g') ∧
      g'.countAPIs "myapp-auth" = 0) :=
  ⟨rfl,
   (C5_route_deleted_not_found_is_success kongGw "service" gaRoutes "myapp-auth" emptyGw rfl).1 emptyGw rfl,
   (C5_route_deleted_not_found_is_success kongGw "service" gaRoutes "myapp-auth" gwAuth rfl).2.2.2 gwAuth apiAuth rfl⟩

/-- C10: when the existence check `GetAPI` on the Service Added creation path
fails with ANY error other than `kong.ErrNotFound`, the controller returns
success with the state exactly as the lookup left it — the error is discarded
and no API object is created (stated over every client, so no mutation can
have happened) — whereas `createKongGatewayApi`, the RouteDefinition Added
path, propagates the very same lookup error. -/
theorem C10_service_added_swallows_lookup_errors {σ : Type} (c : KongClient σ)
    (apiLabel gname : String) (getGA : String → Except GoError GatewayApi)
    (ga : GatewayApi) (v1s : V1Service) (p : ServicePort) (rest : List ServicePort)
    (s : σ) (e : GoError) (s₁ : σ)
    (hlabel : lookupLabel v1s.labels apiLabel = some gname)
    (hga : getGA gname = .ok ga)
    (hports : v1s.ports = p :: rest)
    (hget : c.GetAPI v1s.name s = (.error e, s₁))
    (hne : e ≠ .kongNotFound) :
    gatewayapi.createKongGatewayApiForService apiLabel getGA c v1s s = (.ok (), s₁) ∧
    (∀ (sel : String) (services : List V1Service) (a : GatewayApi) (serviceName : String),
      lookupLabel a.spec.Selector sel = some serviceName →
      ∀ s₂, c.GetAPI serviceName s = (.error e, s₂) →
      gatewayapi.createKongGatewayApi sel apiLabel services c a s = (.error e, s₂)) := by
  constructor
  · simp only [gatewayapi.createKongGatewayApiForService, hlabel, hga, hports]
    rw [hget]
    cases e with
    | kongNotFound => exact absurd rfl hne
    | gatewayNotFound => rfl
    | serviceNotFound => rfl
    | msg m => rfl
  · intro sel services a serviceName hsel s₂ hget₂
    simp only [gatewayapi.createKongGatewayApi, hsel]
    rw [hget₂]
    cases e with
    | kongNotFound => exact absurd rfl hne
    | gatewayNotFound => rfl
    | serviceNotFound => rfl
    | msg m => rfl

/-- Witness for C10: against an unreachable gateway, the Service Added path
reports success while the RouteDefinition Added path propagates the error. -/
theorem C10_witness :
    gatewayapi.createKongGatewayApiForService "kong.gateway.api" lookupGA downClient svcAuth ()
      = (.ok (), ()) ∧
    gatewayapi.createKongGatewayApi "service" "kong.gateway.api" [svcAuth] downClient gaRoutes ()
      = (.error (.msg "connection refused"), ()) := by
  have h := C10_service_added_swallows_lookup_errors downClient "kong.gateway.api"
    "myapp-routes" lookupGA gaRoutes svcAuth { name := "auth", port := 3000 }
    [{ name := "auth2", port := 3001 }] () (.msg "connection refused") ()
    rfl rfl rfl rfl (by decide)
  exact ⟨h.1, h.2 "service" [svcAuth] gaRoutes "myapp-auth" rfl () rfl⟩

/-- C9: every watch event callback handed an object whose dynamic type is not
the expected kind emits no event (`none`: nothing is sent on the channel) and
returns normally — for the route controller's service callback and
service-update callback, the plugin controller's plugin callback, and the
route controller's GatewayApi callback.  The callbacks are total functions,
so a mismatch is never fatal to the stream. -/
theorem C9_type_mismatch_drops_event (evType : String) (obj : WatchObj) :
    ((∀ v1s : V1Service, obj ≠ .service v1s) →
      gatewayapi.serviceEventCallback evType obj = none) ∧
    ((∀ plugin : ApiPlugin, obj ≠ .apiPlugin plugin) →
      apiplugin.pluginEventCallback evType obj = none) ∧
    ((∀ a : GatewayApi, obj ≠ .gatewayApi a) →
      gatewayapi.gatewayApiEventCallback evType obj = none) ∧
    (∀ oldObj newObj : WatchObj,
      ((∀ v1s : V1Service, oldObj ≠ .service v1s) ∨ (∀ v1s : V1Service, newObj ≠ .service v1s)) →
      gatewayapi.serviceUpdateEventCallback oldObj newObj = none) := by
  refine ⟨fun h => ?_, fun h => ?_, fun h => ?_, fun oldObj newObj h => ?_⟩
  · cases obj with
    | service v1s => exact absurd rfl (h v1s)
    | gatewayApi a => rfl
    | apiPlugin p => rfl
    | other d => rfl
  · cases obj with
    | service v1s => rfl
    | gatewayApi a => rfl
    | apiPlugin p => exact absurd rfl (h p)
    | other d => rfl
  · cases obj with
    | service v1s => rfl
    | gatewayApi a => exact absurd rfl (h a)
    | apiPlugin p => rfl
    | other d => rfl
  · cases oldObj with
    | service so =>
      cases newObj with
      | service sn =>
        cases h with
        | inl h1 => exact absurd rfl (h1 so)
        | inr h2 => exact absurd rfl (h2 sn)
      | gatewayApi a => rfl
      | apiPlugin p => rfl
      | other d => rfl
    | gatewayApi a => cases newObj <;> rfl
    | apiPlugin p => cases newObj <;> rfl
    | other d => cases newObj <;> rfl

/-- Witness for C9: a decoded object of a wrong dynamic kind is dropped by
every callback. -/
theorem C9_witness :
    gatewayapi.serviceEventCallback "ADDED" (.other "unexpected kind") = none ∧
    apiplugin.pluginEventCallback "ADDED" (.other "unexpected kind") = none ∧
    gatewayapi.gatewayApiEventCallback "ADDED" (.other "unexpected kind") = none ∧
    gatewayapi.serviceUpdateEventCallback (.other "unexpected kind") (.service svcAuth) = none := by
  have h := C9_type_mismatch_drops_event "ADDED" (.other "unexpected kind")
  exact ⟨h.1 (fun _ hc => WatchObj.noConfusion hc),
         h.2.1 (fun _ hc => WatchObj.noConfusion hc),
         h.2.2.1 (fun _ hc => WatchObj.noConfusion hc),
         h.2.2.2 (.other "unexpected kind") (.service svcAuth)
           (Or.inl (fun _ hc => WatchObj.noConfusion hc))⟩

/-- C6 (code bug): on a store whose only service carries NO labels, the
lookup helper returns that service even though it matches neither the
service-selector-equals requirement nor the api-label-exists requirement —
the source discards the selectors returned by `labels.Selector.Add`, so the
query runs with the empty selector.  The helper as the spec (and the
function's own doc comment) describes it returns `ErrServiceNotFound`
here. -/
theorem C6_selector_lookup_ignores_requirements :
    getServiceByServiceLabelSelector "service" "kong.gateway.api" [svcPlain] "myapp-auth"
      = .ok svcPlain ∧
    selectorMatches (Selector.add (Selector.add [] (.keyEquals "service" "myapp-auth"))
      (.hasKey "kong.gateway.api")) svcPlain.labels = false ∧
    getServiceByServiceLabelSelectorClaimed "service" "kong.gateway.api" [svcPlain] "myapp-auth"
      = .error .serviceNotFound :=
  ⟨rfl, rfl, rfl⟩

/-- A failed linear search stays failed on any sublist obtained by
filtering. -/
theorem find?_filter_none {α : Type} (p q : α → Bool) (l : List α)
    (h : l.find? p = none) : (l.filter q).find? p = none := by
  rw [List.find?_eq_none] at h ⊢
  exact fun a ha => h a (List.mem_of_mem_filter ha)

/-- C2: for a RouteDefinition Modified event where both specs carry the
service selector and the new backing service resolves with at least one port:
if the selector value is unchanged, the controller replaces the existing API
object (addressed by the resolved service's name) with the full object
recomputed from the NEW spec; if the selector value changed, it deletes the
API object under the old value (tolerating a not-found lookup there as
success) and creates the recomputed object for the new service, leaving zero
API objects under the old name and exactly one — the recomputed one — under
the new service's name. -/
theorem C2_route_modified_reassignment
    (sel apiLabel : String) (services : List V1Service)
    (old new : GatewayApi) (oldName newName : String)
    (srv : V1Service) (p : ServicePort) (rest : List ServicePort) (g : Gateway)
    (desired : API)
    (hold : lookupLabel old.spec.Selector sel = some oldName)
    (hnew : lookupLabel new.spec.Selector sel = some newName)
    (hsrv : getServiceByServiceLabelSelector sel apiLabel services newName = .ok srv)
    (hports : srv.ports = p :: rest)
    (hdesired : desired =
      { ID := "", Name := srv.name, Hosts := new.spec.Hosts, URIs := new.spec.Uris,
        UpstreamURL := srv.clusterIP ++ ":" ++ toString p.port,
        StripURI := new.spec.StripURI, Methods := new.spec.Methods,
        PreserveHost := new.spec.PreserveHost, Retries := new.spec.Retries,
        UpstreamConnectTimeout := new.spec.UpstreamConnectTimeout,
        UpstreamSendTimeout := new.spec.UpstreamSendTimeout,
        UpstreamReadTimeout := new.spec.UpstreamReadTimeout,
        HTTPSOnly := new.spec.HTTPSOnly, HTTPIfTerminated := new.spec.HTTPIfTerminated }) :
    (oldName = newName →
      ∀ apiOld, g.findAPI srv.name = some apiOld →
      gatewayapi.processGatewayApiUpdateEvent sel apiLabel services kongGw
          { Old := old, New := new } g
        = (.ok (), { g with apis := g.apis.map (fun x =>
            if x.Name == srv.name then desired else x) })) ∧
    (oldName ≠ newName → srv.name ≠ oldName → g.findAPI srv.name = none →
      ∃ g' : Gateway,
        gatewayapi.processGatewayApiUpdateEvent sel apiLabel services kongGw
            { Old := old, New := new } g = (.ok (), g') ∧
        g'.countAPIs oldName = 0 ∧
        g'.countAPIs srv.name = 1 ∧
        g'.findAPI srv.name = some desired) := by
  subst hdesired
  have hnoNewList : ∀ h : g.findAPI srv.name = none,
      g.apis.find? (fun a => a.Name == srv.name) = none := fun h => h
  constructor
  · intro heq apiOld hfind
    simp only [gatewayapi.processGatewayApiUpdateEvent, gatewayapi.updateKongGatewayApi,
      hold, hnew, hsrv, hports, heq, beq_self_eq_true, if_true, kongGw,
      Gateway.updateAPI]
    rw [if_neg (by simp)]
    rw [hfind]
  · intro hne hneName hnoNew
    have hbne : (oldName == newName) = false := beq_eq_false_iff_ne.mpr hne
    have hDname : ((srv.name == oldName) = false) := beq_eq_false_iff_ne.mpr hneName
    have hfiltNew : g.apis.filter (fun a => a.Name == srv.name) = [] :=
      filter_eq_nil_of_find?_eq_none _ _ (hnoNewList hnoNew)
    cases hfind : g.findAPI oldName with
    | none =>
      refine ⟨Gateway.mk (g.apis ++
        [{ ID := "", Name := srv.name, Hosts := new.spec.Hosts, URIs := new.spec.Uris,
           UpstreamURL := srv.clusterIP ++ ":" ++ toString p.port,
           StripURI := new.spec.StripURI, Methods := new.spec.Methods,
           PreserveHost := new.spec.PreserveHost, Retries := new.spec.Retries,
           UpstreamConnectTimeout := new.spec.UpstreamConnectTimeout,
           UpstreamSendTimeout := new.spec.UpstreamSendTimeout,
           UpstreamReadTimeout := new.spec.UpstreamReadTimeout,
           HTTPSOnly := new.spec.HTTPSOnly, HTTPIfTerminated := new.spec.HTTPIfTerminated }])
        g.plugins g.nextPluginID, ?_, ?_, ?_, ?_⟩
      · simp only [gatewayapi.processGatewayApiUpdateEvent, gatewayapi.updateKongGatewayApi,
          hold, hnew, hsrv, hports, hbne, if_false, Bool.false_eq_true, kongGw,
          Gateway.getAPI, Gateway.createAPI, hfind, hnoNew, beq_self_eq_true, if_true]
      · simp only [Gateway.countAPIs, List.filter_append, hfiltNew, List.filter_cons]
        rw [filter_eq_nil_of_find?_eq_none _ _ hfind]
        simp [hDname]
      · simp only [Gateway.countAPIs, List.filter_append, hfiltNew, List.filter_cons]
        simp
      · simp only [Gateway.findAPI, List.find?_append, hnoNewList hnoNew, Option.none_or]
        simp [List.find?]
    | some apiOld =>
      have hfiltNewSub : (g.apis.filter (fun x => !(x.Name == oldName))).find?
          (fun a => a.Name == srv.name) = none :=
        find?_filter_none _ _ _ (hnoNewList hnoNew)
      refine ⟨Gateway.mk ((g.apis.filter (fun x => !(x.Name == oldName))) ++
        [{ ID := "", Name := srv.name, Hosts := new.spec.Hosts, URIs := new.spec.Uris,
           UpstreamURL := srv.clusterIP ++ ":" ++ toString p.port,
           StripURI := new.spec.StripURI, Methods := new.spec.Methods,
           PreserveHost := new.spec.PreserveHost, Retries := new.spec.Retries,
           UpstreamConnectTimeout := new.spec.UpstreamConnectTimeout,
           UpstreamSendTimeout := new.spec.UpstreamSendTimeout,
           UpstreamReadTimeout := new.spec.UpstreamReadTimeout,
           HTTPSOnly := new.spec.HTTPSOnly, HTTPIfTerminated := new.spec.HTTPIfTerminated }])
        (g.plugins.filter (fun pr => !(pr.1 == oldName))) g.nextPluginID, ?_, ?_, ?_, ?_⟩
      · have hfind' : List.find? (fun a => a.Name == oldName) g.apis = some apiOld := hfind
        simp only [gatewayapi.processGatewayApiUpdateEvent, gatewayapi.updateKongGatewayApi,
          hold, hnew, hsrv, hports, hbne, if_false, Bool.false_eq_true, kongGw,
          Gateway.getAPI, Gateway.deleteAPI, Gateway.createAPI, Gateway.findAPI,
          hfind', hfiltNewSub]
      · simp only [Gateway.countAPIs, List.filter_append, filter_filter_not_eq_nil,
          List.filter_cons]
        simp [hDname]
      · simp only [Gateway.countAPIs, List.filter_append,
          filter_eq_nil_of_find?_eq_none _ _ hfiltNewSub, List.filter_cons]
        simp
      · simp only [Gateway.findAPI, List.find?_append, hfiltNewSub, Option.none_or]
        simp [List.find?]

/-- Witness for C2: an unchanged selector updates `myapp-auth` in place with
the recomputed object; moving the selector from `myapp-auth` to `other-svc`
leaves no API object named `myapp-auth` and exactly one named `other-svc`. -/
theorem C2_witness :
    (gatewayapi.processGatewayApiUpdateEvent "service" "kong.gateway.api" [svcAuth] kongGw
        { Old := gaRoutes, New := gaRoutes } gwAuth
      = (.ok (), { gwAuth with apis := gwAuth.apis.map (fun x =>
          if x.Name == svcAuth.name then apiAuth else x) })) ∧
    (∃ g' : Gateway,
      gatewayapi.processGatewayApiUpdateEvent "service" "kong.gateway.api" [svcOther] kongGw
          { Old := gaRoutes, New := gaOther } gwAuth = (.ok (), g') ∧
      g'.countAPIs "myapp-auth" = 0 ∧
      g'.countAPIs svcOther.name = 1 ∧
      g'.findAPI svcOther.name = some apiOther) :=
  ⟨(C2_route_modified_reassignment "service" "kong.gateway.api" [svcAuth] gaRoutes gaRoutes
      "myapp-auth" "myapp-auth" svcAuth { name := "auth", port := 3000 }
      [{ name := "auth2", port := 3001 }] gwAuth apiAuth rfl rfl rfl rfl rfl).1 rfl apiAuth rfl,
   (C2_route_modified_reassignment "service" "kong.gateway.api" [svcOther] gaRoutes gaOther
      "myapp-auth" "other-svc" svcOther { name := "http", port := 8080 } [] gwAuth apiOther
      rfl rfl rfl rfl rfl).2 (by decide) (by decide) rfl⟩

/-- Appending one API whose name is searched for, to a list where the search
fails, makes the lookup find exactly the appended object. -/
theorem findAPI_append_self (l : List API) (pls : List (String × Plugin))
    (nid : Nat) (D : API) (n : String)
    (hl : l.find? (fun x => x.Name == n) = none) (hD : D.Name = n) :
    (Gateway.mk (l ++ [D]) pls nid).findAPI n = some D := by
  simp [Gateway.findAPI, List.find?_append, hl, List.find?, hD]

/-- C3: processing the same Added event twice leaves the gateway state
identical to processing it once.  For a Service Added event that created an
API object, the second run's `GetAPI` existence check finds the object and no
second create is issued (the run returns success with the state unchanged,
and exactly one API object carries the service's name).  For a
PluginDefinition Added event that attached a plugin, the second run's
`APIHasPlugin` check finds it and no second attach is issued (success, state
unchanged, and exactly one plugin of that name is attached). -/
theorem C3_added_twice_is_idempotent
    (apiLabel gname pluginSel serviceName : String)
    (getGA : String → Except GoError GatewayApi) (ga : GatewayApi)
    (v1s : V1Service) (p : ServicePort) (rest : List ServicePort) (g : Gateway)
    (pl : ApiPlugin) (a : API) (gp : Gateway)
    (hlabel : lookupLabel v1s.labels apiLabel = some gname)
    (hga : getGA gname = .ok ga)
    (hports : v1s.ports = p :: rest)
    (hmissing : g.findAPI v1s.name = none)
    (hplsel : lookupLabel pl.spec.selector pluginSel = some serviceName)
    (hapi : gp.findAPI serviceName = some a)
    (hnotYet : findPluginNamed (gp.pluginsFor serviceName) pl.spec.name = false) :
    (gatewayapi.createKongGatewayApiForService apiLabel getGA kongGw v1s
        (gatewayapi.createKongGatewayApiForService apiLabel getGA kongGw v1s g).2
      = (.ok (), (gatewayapi.createKongGatewayApiForService apiLabel getGA kongGw v1s g).2)) ∧
    Gateway.countAPIs
      (gatewayapi.createKongGatewayApiForService apiLabel getGA kongGw v1s g).2 v1s.name = 1 ∧
    (apiplugin.attachPluginToService pluginSel kongGw pl
        (apiplugin.attachPluginToService pluginSel kongGw pl gp).2
      = (.ok (), (apiplugin.attachPluginToService pluginSel kongGw pl gp).2)) ∧
    Gateway.countPlugins
      (apiplugin.attachPluginToService pluginSel kongGw pl gp).2 serviceName pl.spec.name = 1 := by
  have hm : g.apis.find? (fun x => x.Name == v1s.name) = none := hmissing
  have ha : gp.apis.find? (fun x => x.Name == serviceName) = some a := hapi
  have hrun1 : gatewayapi.createKongGatewayApiForService apiLabel getGA kongGw v1s g
      = (.ok (), Gateway.mk
          (g.apis ++ [desiredAPI ga.spec v1s.name (v1s.clusterIP ++ ":" ++ toString p.port)])
          g.plugins g.nextPluginID) := by
    simp only [gatewayapi.createKongGatewayApiForService, hlabel, hga, hports, kongGw,
      Gateway.getAPI, Gateway.createAPI, Gateway.findAPI, hm, desiredAPI]
  have hfound : (Gateway.mk
        (g.apis ++ [desiredAPI ga.spec v1s.name (v1s.clusterIP ++ ":" ++ toString p.port)])
        g.plugins g.nextPluginID).findAPI v1s.name
      = some (desiredAPI ga.spec v1s.name (v1s.clusterIP ++ ":" ++ toString p.port)) :=
    findAPI_append_self _ _ _ _ _ hm rfl
  have hrun2 : apiplugin.attachPluginToService pluginSel kongGw pl gp
      = (.ok (), Gateway.mk gp.apis
          (gp.plugins ++ [(serviceName, storedPlugin gp.nextPluginID a.ID pl)])
          (gp.nextPluginID + 1)) := by
    simp only [apiplugin.attachPluginToService, hplsel, APIHasPlugin, kongGw,
      Gateway.getAPI, Gateway.listApiPlugins, Gateway.addPlugin, Gateway.findAPI,
      ha, hnotYet, Bool.not_false, if_true, storedPlugin]
  have hfor : Gateway.pluginsFor (Gateway.mk gp.apis
        (gp.plugins ++ [(serviceName, storedPlugin gp.nextPluginID a.ID pl)])
        (gp.nextPluginID + 1)) serviceName
      = gp.pluginsFor serviceName ++ [storedPlugin gp.nextPluginID a.ID pl] := by
    simp [Gateway.pluginsFor, List.filter_append, List.filter_cons]
  refine ⟨?_, ?_, ?_, ?_⟩
  · rw [hrun1]
    simp only [gatewayapi.createKongGatewayApiForService, hlabel, hga, hports, kongGw,
      Gateway.getAPI, hfound]
  · rw [hrun1]
    simp only [Gateway.countAPIs, List.filter_append,
      filter_eq_nil_of_find?_eq_none _ _ hm, List.filter_cons, desiredAPI]
    simp
  · rw [hrun2]
    simp only [apiplugin.attachPluginToService, hplsel, APIHasPlugin, kongGw,
      Gateway.getAPI, Gateway.listApiPlugins, Gateway.findAPI, ha, hfor,
      findPluginNamed_append, hnotYet, Bool.false_or]
    rw [show findPluginNamed [storedPlugin gp.nextPluginID a.ID pl] pl.spec.name = true
      from by simp [findPluginNamed, storedPlugin]]
    simp
  · rw [hrun2]
    rw [countPlugins_eq_pluginsFor]
    rw [hfor, List.filter_append, filter_name_nil_of_findPluginNamed_false _ _ hnotYet]
    simp [storedPlugin]

/-- Witness for C3: re-adding the `myapp-auth` service and re-adding the
`key-auth` PluginDefinition are both no-ops the second time. -/
theorem C3_witness :
    (gatewayapi.createKongGatewayApiForService "kong.gateway.api" lookupGA kongGw svcAuth
        (gatewayapi.createKongGatewayApiForService "kong.gateway.api" lookupGA kongGw svcAuth emptyGw).2
      = (.ok (), (gatewayapi.createKongGatewayApiForService "kong.gateway.api" lookupGA kongGw svcAuth emptyGw).2)) ∧
    Gateway.countAPIs
      (gatewayapi.createKongGatewayApiForService "kong.gateway.api" lookupGA kongGw svcAuth emptyGw).2
      svcAuth.name = 1 ∧
    (apiplugin.attachPluginToService "service" kongGw plKeyAuth
        (apiplugin.attachPluginToService "service" kongGw plKeyAuth gwAuth).2
      = (.ok (), (apiplugin.attachPluginToService "service" kongGw plKeyAuth gwAuth).2)) ∧
    Gateway.countPlugins
      (apiplugin.attachPluginToService "service" kongGw plKeyAuth gwAuth).2
      "myapp-auth" plKeyAuth.spec.name = 1 :=
  C3_added_twice_is_idempotent "kong.gateway.api" "myapp-routes" "service" "myapp-auth"
    lookupGA gaRoutes svcAuth { name := "auth", port := 3000 }
    [{ name := "auth2", port := 3001 }] emptyGw plKeyAuth apiAuth gwAuth
    rfl rfl rfl rfl rfl rfl rfl

/-- C7: for a Service Added or Modified event handled by the plugin
controller, with one PluginDefinition whose plugin-service-selector label
carries the service's name: when the service's API object exists, the
controller checks `APIHasPlugin` and attaches the plugin (name plus config,
via `storedPlugin`) only when absent — an already-attached plugin leaves the
state untouched — and exactly one plugin of the name is attached afterwards;
when the API object does not exist in the gateway, the reconciliation returns
an error (the attach fails against the missing API) rather than
succeeding. -/
theorem C7_plugin_attach_requires_api
    (pluginSel : String) (ps : List ApiPlugin) (pl : ApiPlugin)
    (v1s : V1Service) (g : Gateway) (e : ServiceEvent)
    (hev : e = { type := "ADDED", Object := v1s } ∨ e = { type := "MODIFIED", Object := v1s })
    (hlist : ps.filter (fun q => selectorMatches
        (Selector.add [] (.keyEquals pluginSel v1s.name)) q.labels) = [pl]) :
    (∀ a, g.findAPI v1s.name = some a →
      (findPluginNamed (g.pluginsFor v1s.name) pl.spec.name = true →
        apiplugin.processServiceEvent pluginSel ps kongGw e g = (.ok (), g)) ∧
      (findPluginNamed (g.pluginsFor v1s.name) pl.spec.name = false →
        apiplugin.processServiceEvent pluginSel ps kongGw e g
          = (.ok (), Gateway.mk g.apis
              (g.plugins ++ [(v1s.name, storedPlugin g.nextPluginID a.ID pl)])
              (g.nextPluginID + 1)) ∧
        Gateway.countPlugins (Gateway.mk g.apis
              (g.plugins ++ [(v1s.name, storedPlugin g.nextPluginID a.ID pl)])
              (g.nextPluginID + 1)) v1s.name pl.spec.name = 1)) ∧
    (g.findAPI v1s.name = none →
      ∃ m : String, apiplugin.processServiceEvent pluginSel ps kongGw e g
        = (.error (.msg m), g)) := by
  have hred : apiplugin.processServiceEvent pluginSel ps kongGw e g
      = apiplugin.attachServicePlugins pluginSel ps kongGw v1s g := by
    rcases hev with h | h <;> subst h <;> simp [apiplugin.processServiceEvent]
  have hloop : apiplugin.attachServicePlugins pluginSel ps kongGw v1s g
      = apiplugin.attachLoop kongGw v1s.name [pl] g := by
    simp only [apiplugin.attachServicePlugins, hlist]
  refine ⟨fun a ha => ⟨fun hhas => ?_, fun hnot => ⟨?_, ?_⟩⟩, fun hnone => ?_⟩
  · have ha' : g.apis.find? (fun x => x.Name == v1s.name) = some a := ha
    rw [hred, hloop]
    simp [apiplugin.attachLoop, APIHasPlugin, kongGw, Gateway.getAPI,
      Gateway.listApiPlugins, Gateway.findAPI, ha', hhas]
  · have ha' : g.apis.find? (fun x => x.Name == v1s.name) = some a := ha
    rw [hred, hloop]
    simp [apiplugin.attachLoop, APIHasPlugin, kongGw, Gateway.getAPI,
      Gateway.listApiPlugins, Gateway.addPlugin, Gateway.findAPI, ha', hnot,
      storedPlugin]
  · have hfor : Gateway.pluginsFor (Gateway.mk g.apis
          (g.plugins ++ [(v1s.name, storedPlugin g.nextPluginID a.ID pl)])
          (g.nextPluginID + 1)) v1s.name
        = g.pluginsFor v1s.name ++ [storedPlugin g.nextPluginID a.ID pl] := by
      simp [Gateway.pluginsFor, List.filter_append, List.filter_cons]
    rw [countPlugins_eq_pluginsFor, hfor, List.filter_append,
      filter_name_nil_of_findPluginNamed_false _ _ hnot]
    simp [storedPlugin]
  · have hnone' : g.apis.find? (fun x => x.Name == v1s.name) = none := hnone
    refine ⟨"Failed to create the new plugin for the " ++ v1s.name ++ " api with status code 404", ?_⟩
    rw [hred, hloop]
    simp [apiplugin.attachLoop, APIHasPlugin, kongGw, Gateway.getAPI,
      Gateway.listApiPlugins, Gateway.addPlugin, Gateway.findAPI, hnone']

/-- Witness for C7: the `key-auth` PluginDefinition is attached to the
existing `myapp-auth` API object on a Service Added event, and the same event
against the empty gateway (no API object) errors. -/
theorem C7_witness :
    (apiplugin.processServiceEvent "service" [plKeyAuth] kongGw
        { type := "ADDED", Object := svcAuth } gwAuth
      = (.ok (), Gateway.mk gwAuth.apis
          (gwAuth.plugins ++ [(svcAuth.name, storedPlugin gwAuth.nextPluginID apiAuth.ID plKeyAuth)])
          (gwAuth.nextPluginID + 1))) ∧
    Gateway.countPlugins (Gateway.mk gwAuth.apis
          (gwAuth.plugins ++ [(svcAuth.name, storedPlugin gwAuth.nextPluginID apiAuth.ID plKeyAuth)])
          (gwAuth.nextPluginID + 1)) svcAuth.name plKeyAuth.spec.name = 1 ∧
    (∃ m : String, apiplugin.processServiceEvent "service" [plKeyAuth] kongGw
        { type := "MODIFIED", Object := svcAuth } emptyGw = (.error (.msg m), emptyGw)) := by
  have h1 := (C7_plugin_attach_requires_api "service" [plKeyAuth] plKeyAuth svcAuth gwAuth
      { type := "ADDED", Object := svcAuth } (Or.inl rfl) rfl).1 apiAuth rfl
  have h2 := (C7_plugin_attach_requires_api "service" [plKeyAuth] plKeyAuth svcAuth emptyGw
      { type := "MODIFIED", Object := svcAuth } (Or.inr rfl) rfl).2 rfl
  exact ⟨(h1.2 rfl).1, (h1.2 rfl).2, h2⟩

/-- A name scan skips a leading segment in which no plugin carries the
name. -/
theorem findPluginNamed_skip (l₁ l₂ : List Plugin) (n : String)
    (h : ∀ q ∈ l₁, (q.Name == n) = false) :
    findPluginNamed (l₁ ++ l₂) n = findPluginNamed l₂ n := by
  induction l₁ with
  | nil => rfl
  | cons a t ih =>
    have ha := h a (List.mem_cons_self a t)
    have ht : ∀ q ∈ t, (q.Name == n) = false :=
      fun q hq => h q (List.mem_cons_of_mem a hq)
    simp [findPluginNamed, ha, ih ht]

/-- An id scan skips a leading segment in which no plugin carries the
name. -/
theorem findPluginID_skip (l₁ l₂ : List Plugin) (n : String)
    (h : ∀ q ∈ l₁, (q.Name == n) = false) :
    findPluginID (l₁ ++ l₂) n = findPluginID l₂ n := by
  induction l₁ with
  | nil => rfl
  | cons a t ih =>
    have ha := h a (List.mem_cons_self a t)
    have ht : ∀ q ∈ t, (q.Name == n) = false :=
      fun q hq => h q (List.mem_cons_of_mem a hq)
    simp [findPluginID, ha, ih ht]

/-- Filtering after a map that never changes the predicate's verdict keeps
the count. -/
theorem filter_length_map_congr {α : Type} (f : α → α) (q : α → Bool) (l : List α)
    (h : ∀ x, q (f x) = q x) : ((l.map f).filter q).length = (l.filter q).length := by
  induction l with
  | nil => rfl
  | cons x l ih => cases hx : q x <;> simp [List.filter_cons, h, hx, ih]

/-- C8: for PluginDefinition Modified and Deleted events whose spec carries
the service selector: a missing API object for the backing service is
propagated as `ErrNotFound` by both (in contrast with the route controller's
delete path, which succeeds on the same gateway); when the plugin is not
attached, modification does nothing (never implicitly creates) and deletion
is a no-op returning success; when attached, modification rewrites exactly
the attached instance's configuration in place (attachment count unchanged)
and deletion removes exactly the attached instance, leaving zero plugins of
the name. -/
theorem C8_plugin_modify_delete_require_attachment
    (pluginSel serviceName : String) (p : ApiPlugin) (g : Gateway)
    (hsel : lookupLabel p.spec.selector pluginSel = some serviceName) :
    (g.findAPI serviceName = none →
      apiplugin.updatePlugin pluginSel kongGw p g = (.error .kongNotFound, g) ∧
      apiplugin.detachPluginFromService pluginSel kongGw p g = (.error .kongNotFound, g) ∧
      (∀ rd : GatewayApi, lookupLabel rd.spec.Selector pluginSel = some serviceName →
        gatewayapi.deleteKongGatewayApi pluginSel kongGw rd g = (.ok (), g))) ∧
    (∀ a, g.findAPI serviceName = some a →
      findPluginNamed (g.pluginsFor serviceName) p.spec.name = false →
      apiplugin.updatePlugin pluginSel kongGw p g = (.ok (), g) ∧
      apiplugin.detachPluginFromService pluginSel kongGw p g = (.ok (), g)) ∧
    (∀ a, g.findAPI serviceName = some a →
      findPluginNamed (g.pluginsFor serviceName) p.spec.name = true →
      apiplugin.updatePlugin pluginSel kongGw p g
        = (.ok (), Gateway.mk g.apis (g.plugins.map (fun pr =>
            if pr.1 == serviceName && pr.2.Name == p.spec.name
            then (pr.1, { pr.2 with Config := p.spec.config }) else pr)) g.nextPluginID) ∧
      Gateway.countPlugins (Gateway.mk g.apis (g.plugins.map (fun pr =>
            if pr.1 == serviceName && pr.2.Name == p.spec.name
            then (pr.1, { pr.2 with Config := p.spec.config }) else pr)) g.nextPluginID)
          serviceName p.spec.name
        = Gateway.countPlugins g serviceName p.spec.name) ∧
    (∀ a pre q0 post, g.findAPI serviceName = some a →
      g.plugins = pre ++ (serviceName, q0) :: post →
      (q0.Name == p.spec.name) = true →
      (q0.ID == "") = false →
      (∀ pr ∈ pre ++ post, (pr.1 == serviceName && pr.2.Name == p.spec.name) = false) →
      (∀ pr ∈ pre ++ post, (pr.1 == serviceName && pr.2.ID == q0.ID) = false) →
      apiplugin.detachPluginFromService pluginSel kongGw p g
        = (.ok (), Gateway.mk g.apis (pre ++ post) g.nextPluginID) ∧
      Gateway.countPlugins (Gateway.mk g.apis (pre ++ post) g.nextPluginID)
        serviceName p.spec.name = 0) := by
  refine ⟨fun hnone => ?_, fun a ha hnot => ?_, fun a ha hhas => ?_,
    fun a pre q0 post ha hplug hq0name hq0id hname hid2 => ?_⟩
  · have hnone' : g.apis.find? (fun x => x.Name == serviceName) = none := hnone
    refine ⟨?_, ?_, fun rd hrd => ?_⟩
    · simp [apiplugin.updatePlugin, hsel, kongGw, Gateway.getAPI, Gateway.findAPI, hnone']
    · simp [apiplugin.detachPluginFromService, hsel, kongGw, Gateway.getAPI,
        Gateway.findAPI, hnone']
    · simp [gatewayapi.deleteKongGatewayApi, hrd, kongGw, Gateway.getAPI,
        Gateway.findAPI, hnone']
  · have ha' : g.apis.find? (fun x => x.Name == serviceName) = some a := ha
    constructor
    · simp [apiplugin.updatePlugin, hsel, APIHasPlugin, kongGw, Gateway.getAPI,
        Gateway.listApiPlugins, Gateway.findAPI, ha', hnot]
    · simp [apiplugin.detachPluginFromService, hsel, APIHasPlugin, kongGw, Gateway.getAPI,
        Gateway.listApiPlugins, Gateway.findAPI, ha', hnot]
  · have ha' : g.apis.find? (fun x => x.Name == serviceName) = some a := ha
    constructor
    · simp [apiplugin.updatePlugin, hsel, APIHasPlugin, kongGw, Gateway.getAPI,
        Gateway.listApiPlugins, Gateway.updatePlugin, Gateway.findAPI, ha', hhas]
    · simp only [Gateway.countPlugins]
      exact filter_length_map_congr _ _ g.plugins (by
        intro x
        cases hx : (x.1 == serviceName && x.2.Name == p.spec.name) <;> simp [hx])
  · obtain ⟨gapis, gplugs, gnid⟩ := g
    simp only at hplug
    subst hplug
    have ha' : gapis.find? (fun x => x.Name == serviceName) = some a := ha
    have hname_pre : ∀ pr ∈ pre, (pr.1 == serviceName && pr.2.Name == p.spec.name) = false :=
      fun pr h => hname pr (List.mem_append.mpr (Or.inl h))
    have hid2_pre : ∀ pr ∈ pre, (pr.1 == serviceName && pr.2.ID == q0.ID) = false :=
      fun pr h => hid2 pr (List.mem_append.mpr (Or.inl h))
    have hid2_post : ∀ pr ∈ post, (pr.1 == serviceName && pr.2.ID == q0.ID) = false :=
      fun pr h => hid2 pr (List.mem_append.mpr (Or.inr h))
    have hname_post : ∀ pr ∈ post, (pr.1 == serviceName && pr.2.Name == p.spec.name) = false :=
      fun pr h => hname pr (List.mem_append.mpr (Or.inr h))
    have hforEq : Gateway.pluginsFor
        (Gateway.mk gapis (pre ++ (serviceName, q0) :: post) gnid) serviceName
        = ((pre.filter (fun pr => pr.1 == serviceName)).map (fun pr => pr.2)) ++
          q0 :: ((post.filter (fun pr => pr.1 == serviceName)).map (fun pr => pr.2)) := by
      simp [Gateway.pluginsFor, List.filter_append, List.filter_cons]
    have hpreNames : ∀ q ∈ (pre.filter (fun pr => pr.1 == serviceName)).map (fun pr => pr.2),
        (q.Name == p.spec.name) = false := by
      intro q hq
      obtain ⟨pr, hprmem, rfl⟩ := List.mem_map.mp hq
      have hprf := List.mem_filter.mp hprmem
      have hfull := hname_pre pr hprf.1
      simpa [hprf.2] using hfull
    have hhas : findPluginNamed (Gateway.pluginsFor
        (Gateway.mk gapis (pre ++ (serviceName, q0) :: post) gnid) serviceName)
        p.spec.name = true := by
      rw [hforEq, findPluginNamed_skip _ _ _ hpreNames]
      simp [findPluginNamed, hq0name]
    have hidEq : findPluginID (Gateway.pluginsFor
        (Gateway.mk gapis (pre ++ (serviceName, q0) :: post) gnid) serviceName)
        p.spec.name = q0.ID := by
      rw [hforEq, findPluginID_skip _ _ _ hpreNames]
      simp [findPluginID, hq0name]
    have hfpre : pre.filter (fun pr => pr.1 == serviceName && pr.2.ID == q0.ID) = [] := by
      rw [List.filter_eq_nil_iff]
      intro x hx
      simp [hid2_pre x hx]
    have hfpost : post.filter (fun pr => pr.1 == serviceName && pr.2.ID == q0.ID) = [] := by
      rw [List.filter_eq_nil_iff]
      intro x hx
      simp [hid2_post x hx]
    have hfilterDel : (pre ++ (serviceName, q0) :: post).filter
        (fun pr => pr.1 == serviceName && pr.2.ID == q0.ID) = [(serviceName, q0)] := by
      rw [List.filter_append, List.filter_cons, hfpre, hfpost]
      simp
    have hkeep : (pre ++ (serviceName, q0) :: post).filter
        (fun pr => !(pr.1 == serviceName && pr.2.ID == q0.ID)) = pre ++ post := by
      rw [List.filter_append, List.filter_cons]
      rw [List.filter_eq_self.mpr (fun x hx => by simp [hid2_pre x hx]),
          List.filter_eq_self.mpr (fun x hx => by simp [hid2_post x hx])]
      simp
    constructor
    · simp only [apiplugin.detachPluginFromService, hsel, APIHasPlugin, RemovePlugin,
        kongGw, Gateway.getAPI, Gateway.listApiPlugins, Gateway.findAPI, ha', hhas,
        hidEq, hq0id, Gateway.deletePluginByID, hfilterDel, hkeep, Bool.false_eq_true,
        if_true, if_false, List.isEmpty_cons]
    · have hnil : (pre ++ post).filter
          (fun pr => pr.1 == serviceName && pr.2.Name == p.spec.name) = [] := by
        rw [List.filter_eq_nil_iff]
        intro x hx
        rcases List.mem_append.mp hx with h | h
        · simp [hname_pre x h]
        · simp [hname_post x h]
      simp [Gateway.countPlugins, hnil]

/-- Witness for C8: against the empty gateway both plugin paths error while
the route delete path succeeds; on `gwAuth` (no plugin attached) both are
no-ops; on `gwAuthPlugged` the Deleted path removes the attached
instance. -/
theorem C8_witness :
    (apiplugin.updatePlugin "service" kongGw plKeyAuth emptyGw = (.error .kongNotFound, emptyGw)) ∧
    (apiplugin.detachPluginFromService "service" kongGw plKeyAuth emptyGw = (.error .kongNotFound, emptyGw)) ∧
    (gatewayapi.deleteKongGatewayApi "service" kongGw gaRoutes emptyGw = (.ok (), emptyGw)) ∧
    (apiplugin.updatePlugin "service" kongGw plKeyAuth gwAuth = (.ok (), gwAuth)) ∧
    (apiplugin.detachPluginFromService "service" kongGw plKeyAuth gwAuth = (.ok (), gwAuth)) ∧
    (apiplugin.detachPluginFromService "service" kongGw plKeyAuth gwAuthPlugged
      = (.ok (), Gateway.mk gwAuthPlugged.apis ([] ++ []) gwAuthPlugged.nextPluginID)) ∧
    Gateway.countPlugins (Gateway.mk gwAuthPlugged.apis ([] ++ []) gwAuthPlugged.nextPluginID)
      "myapp-auth" plKeyAuth.spec.name = 0 := by
  have h1 := (C8_plugin_modify_delete_require_attachment "service" "myapp-auth"
    plKeyAuth emptyGw rfl).1 rfl
  have h2 := (C8_plugin_modify_delete_require_attachment "service" "myapp-auth"
    plKeyAuth gwAuth rfl).2.1 apiAuth rfl rfl
  have h4 := (C8_plugin_modify_delete_require_attachment "service" "myapp-auth"
    plKeyAuth gwAuthPlugged rfl).2.2.2 apiAuth [] keyAuthPlugin [] rfl rfl rfl rfl
    (by intro pr h; simp at h) (by intro pr h; simp at h)
  exact ⟨h1.1, h1.2.1, h1.2.2 gaRoutes rfl, h2.1, h2.2, h4.1, h4.2⟩
